import Mathlib

/-!
Verification development for the DroidClaw agent orchestration code.

The definitions below are a shallow embedding of the TypeScript / Kotlin
sources: the skills module (`skills.ts`), the voice capture session
(`server/src/ws/voice.ts`), the pairing routes (`server/src/routes/pairing.ts`),
the goal submission route (`server/src/routes/goals.ts`) and the accessibility
capture loop (`DroidClawAccessibilityService.getScreenTree`).

Effectful primitives (ADB commands, sleeps, screen re-scans, the external
speech-to-text call) are made explicit: commands become values of `Cmd`,
re-scans read from an environment stream `SkillEnv.rescans`, and transcription
is a function parameter.  JavaScript's stable `Array.prototype.sort` is
modelled by a stable insertion sort; JavaScript `Map`s by association lists.
-/

/-! ## String and list helpers -/

/-- Lower-casing of a string, modelling `String.prototype.toLowerCase` on the
ASCII range (the only range the matched literals use). -/
def lowerStr (s : String) : String := String.mk (s.toList.map Char.toLower)

/-- Substring containment, modelling `String.prototype.includes`. -/
def containsStr (hay needle : String) : Bool :=
  (List.range (hay.toList.length + 1)).any
    (fun i => needle.toList.isPrefixOf (hay.toList.drop i))


/-- Whitespace trimming, modelling `String.prototype.trim` (computable by
structural recursion, unlike `String.trim`). -/
def trimStr (s : String) : String :=
  String.mk (((s.toList.dropWhile Char.isWhitespace).reverse.dropWhile
    Char.isWhitespace).reverse)

/-- JavaScript truthiness of an optional string field (`undefined` and `""`
are falsy). -/
def truthy (o : Option String) : Bool :=
  match o with
  | none => false
  | some s => !s.isEmpty

/-- Stable insertion of `x` into a list already sorted by `le`: `x` goes in
front of the first element it compares `le` to, so earlier-arriving elements
stay in front of equal later ones. -/
def insertLe {α : Type} (le : α → α → Bool) (x : α) : List α → List α
  | [] => [x]
  | y :: ys => if le x y then x :: y :: ys else y :: insertLe le x ys

/-- Stable sort, modelling JavaScript's `Array.prototype.sort(cmp)` (stable
per the ECMAScript spec): for the total preorder induced by a numeric
comparator `cmp`, every stable sort produces the same list. -/
def stableSort {α : Type} (le : α → α → Bool) : List α → List α
  | [] => []
  | x :: xs => insertLe le x (stableSort le xs)

/-! ## Association-list model of a JavaScript `Map` with string keys -/

/-- `Map.prototype.get`. -/
def mapGet {β : Type} : List (String × β) → String → Option β
  | [], _ => none
  | p :: ps, k => if p.1 = k then some p.2 else mapGet ps k

/-- `Map.prototype.set`: replace in place if the key is present, append
otherwise (a `Map` keeps insertion order). -/
def mapSet {β : Type} : List (String × β) → String → β → List (String × β)
  | [], k, v => [(k, v)]
  | p :: ps, k, v => if p.1 = k then (k, v) :: ps else p :: mapSet ps k v

/-- `Map.prototype.delete`: drop the entry stored under the key. -/
def mapDelete {β : Type} : List (String × β) → String → List (String × β)
  | [], _ => []
  | p :: ps, k => if p.1 = k then mapDelete ps k else p :: mapDelete ps k

def mapKeys {β : Type} (m : List (String × β)) : List String := m.map Prod.fst

/-! ## Skills module data model (`skills.ts`)

`UIElement`, `ActionDecision` and `ActionResult` mirror the types imported
from `sanitizer.ts` / `actions.ts`.  ADB side effects become `Cmd` values;
`rescanScreen` reads the next entry of `SkillEnv.rescans` (the stream of
screen observations) and is recorded as `Cmd.rescan`. -/

structure UIElement where
  id : String := ""
  text : String := ""
  hint : String := ""
  center : Int × Int := (0, 0)
  size : Int × Int := (0, 0)
  enabled : Bool := false
  clickable : Bool := false
  longClickable : Bool := false
  editable : Bool := false
  checked : Bool := false
  selected : Bool := false
  action : String := ""
deriving DecidableEq, Repr

structure ActionDecision where
  action : String := ""
  skill : Option String := none
  query : Option String := none
  text : Option String := none
deriving DecidableEq, Repr

structure ActionResult where
  success : Bool
  message : String
  data : Option String := none
deriving DecidableEq, Repr

/-- One ADB side effect issued by a skill. `swipe` carries the coordinates and
the swipe duration, `rescan` stands for the `uiautomator dump` + `pull` pair
of `rescanScreen`. -/
inductive Cmd where
  | tap (x y : Int)
  | swipe (x1 y1 x2 y2 : Int) (durMs : Nat)
  | sleep (ms : Nat)
  | rescan
  | clipboardSet (text : String)
  | keyevent (code : Nat)
  | sendtoIntent (address : String)
deriving DecidableEq, Repr

/-- Environment a skill runs in: `rescans k` is the element list produced by
the `k`-th call to `rescanScreen` during this skill invocation, `swipeUp` is
`getSwipeCoords()["up"]` and `swipeDurationMs` is `SWIPE_DURATION_MS` (both
live in modules outside the skills file). -/
structure SkillEnv where
  rescans : Nat → List UIElement
  swipeUp : Int × Int × Int × Int := (0, 0, 0, 0)
  swipeDurationMs : Nat := 0

/-- The swipe command issued by one scroll gesture. -/
def scrollCmd (env : SkillEnv) : Cmd :=
  Cmd.swipe env.swipeUp.1 env.swipeUp.2.1 env.swipeUp.2.2.1 env.swipeUp.2.2.2
    env.swipeDurationMs

/-! ### Skill 1: `submit_message` -/

/-- `SEND_BUTTON_PATTERN = /send|submit|post|arrow|paper.?plane/i`.
`paper.?plane` matches "paper", at most one arbitrary character, then
"plane". -/
def paperPlaneHit (l : List Char) : Bool :=
  (List.range (l.length + 1)).any (fun i =>
    ("paper".toList.isPrefixOf (l.drop i)) &&
      (("plane".toList.isPrefixOf ((l.drop i).drop 5)) ||
        ("plane".toList.isPrefixOf ((l.drop i).drop 6))))

def sendButtonPat (s : String) : Bool :=
  let low := lowerStr s
  containsStr low "send" || containsStr low "submit" || containsStr low "post" ||
    containsStr low "arrow" || paperPlaneHit low.toList

/-- Fallback candidate list of `submitMessage`: enabled clickable elements
sorted bottom-first, restricted to the bottom 20% of screen height, rightmost
first.  The source computes `threshold = maxY * 0.8` in floating point and
keeps `el.center[1] >= threshold`; over the integer pixel coordinates this is
the comparison `5 * y ≥ 4 * maxY`. -/
def submitFallback (elements : List UIElement) : List UIElement :=
  let screenBottom := stableSort (fun a b => decide (b.center.2 ≤ a.center.2))
    (elements.filter (fun el => el.enabled && el.clickable))
  match screenBottom.head? with
  | none => []
  | some top =>
    let maxY := top.center.2
    let inBand := screenBottom.filter (fun el => decide (5 * el.center.2 ≥ 4 * maxY))
    stableSort (fun a b => decide (b.center.1 ≤ a.center.1)) inBand

def submitMessage (env : SkillEnv) (elements : List UIElement) :
    List Cmd × ActionResult :=
  let cands1 := elements.filter (fun el =>
    el.enabled && (el.clickable || el.action == "tap") &&
      (sendButtonPat el.text || sendButtonPat el.id))
  let candidates := if cands1.isEmpty then submitFallback elements else cands1
  match candidates.head? with
  | none => ([], ⟨false, "Could not find a Send/Submit button on screen", none⟩)
  | some target =>
    let x := target.center.1
    let y := target.center.2
    let cmds := [Cmd.tap x y, Cmd.sleep 6000, Cmd.rescan]
    let newElements := env.rescans 0
    let originalTexts := (elements.map (fun el => el.text)).filter (fun t => !t.isEmpty)
    let newTexts := (newElements.map (fun el => el.text)).filter
      (fun t => !t.isEmpty && !originalTexts.contains t)
    if !newTexts.isEmpty then
      let summary := String.intercalate "; " (newTexts.take 3)
      (cmds, ⟨true, "Tapped \"" ++ target.text ++ "\" and new content appeared: " ++ summary,
        some summary⟩)
    else
      (cmds, ⟨true, "Tapped \"" ++ target.text ++ "\" at (" ++ toString x ++ ", " ++
        toString y ++ "). No new content yet — may still be loading.", none⟩)

/-! ### Skill 0: `read_screen` -/

/-- One pass of `collectTexts`: texts not yet seen, in element order
(the `seenTexts` set grows during the pass, so duplicates inside one batch
are also dropped). Returns the newly added texts. -/
def collectTexts (seen : List String) : List UIElement → List String
  | [] => []
  | el :: rest =>
    if !el.text.isEmpty && !seen.contains el.text then
      el.text :: collectTexts (seen ++ [el.text]) rest
    else collectTexts seen rest

/-- The scroll loop of `read_screen`: up to `fuel` scrolls, each one swipes,
waits, re-scans and collects; stops when a pass adds nothing new.  Returns
the issued commands, the final text list and the number of scrolls done. -/
def readScreenLoop (env : SkillEnv) : Nat → Nat → List String →
    List Cmd × List String × Nat
  | 0, _, texts => ([], texts, 0)
  | fuel + 1, k, texts =>
    let cmds0 := [scrollCmd env, Cmd.sleep 1500, Cmd.rescan]
    let added := collectTexts texts (env.rescans k)
    let texts' := texts ++ added
    if added.length = 0 then (cmds0, texts', 1)
    else
      let rest := readScreenLoop env fuel (k + 1) texts'
      (cmds0 ++ rest.1, rest.2.1, rest.2.2 + 1)

def readScreen (env : SkillEnv) (elements : List UIElement) :
    List Cmd × ActionResult :=
  let texts0 := collectTexts [] elements
  let loopOut := readScreenLoop env 5 0 texts0
  let allTexts := loopOut.2.1
  let scrollsDone := loopOut.2.2
  let combinedText := String.intercalate "\n" allTexts
  let clip := if combinedText.length > 0 then [Cmd.clipboardSet combinedText] else []
  (loopOut.1 ++ clip,
    ⟨true, "Read " ++ toString allTexts.length ++ " text elements across " ++
      toString scrollsDone ++ " scrolls (" ++ toString combinedText.length ++
      " chars), copied to clipboard", some combinedText⟩)

/-! ### Skill 2: `copy_visible_text` -/

def copyVisibleText (decision : ActionDecision) (elements : List UIElement) :
    List Cmd × ActionResult :=
  let readable := elements.filter (fun el => !el.text.isEmpty && el.action == "read")
  let filtered1 : List UIElement :=
    match decision.query with
    | some q =>
      if !q.isEmpty then
        readable.filter (fun el => containsStr (lowerStr el.text) (lowerStr q))
      else readable
    | none => readable
  let textElements : List UIElement :=
    if filtered1.isEmpty then
      let anyText := elements.filter (fun el => !el.text.isEmpty)
      match decision.query with
      | some q =>
        if !q.isEmpty then
          anyText.filter (fun el => containsStr (lowerStr el.text) (lowerStr q))
        else anyText
      | none => anyText
    else filtered1
  if textElements.isEmpty then
    ([], ⟨false,
      match decision.query with
      | some q =>
        if !q.isEmpty then "No text matching \"" ++ q ++ "\" found on screen"
        else "No readable text found on screen"
      | none => "No readable text found on screen", none⟩)
  else
    let sorted := stableSort (fun a b => decide (a.center.2 ≤ b.center.2)) textElements
    let combinedText := String.intercalate "\n" (sorted.map (fun el => el.text))
    ([Cmd.clipboardSet combinedText],
      ⟨true, "Copied " ++ toString sorted.length ++ " text elements to clipboard (" ++
        toString combinedText.length ++ " chars)", some combinedText⟩)

/-! ### Skill 3: `wait_for_content` -/

/-- The 5-attempt poll loop: each attempt sleeps 3 s, re-scans and succeeds
once more than 20 characters of new text appeared. `i` is the attempt index
already used (0-based). -/
def waitForContentLoop (env : SkillEnv) (originalTexts : List String) :
    Nat → Nat → List Cmd × ActionResult
  | 0, _ => ([], ⟨false, "No new content appeared after 15s", none⟩)
  | fuel + 1, i =>
    let cmds0 := [Cmd.sleep 3000, Cmd.rescan]
    let newTexts := ((env.rescans i).map (fun el => el.text)).filter
      (fun t => !t.isEmpty && !originalTexts.contains t)
    let totalNewChars := (newTexts.map (fun t => t.length)).sum
    if totalNewChars > 20 then
      let summary := String.intercalate "; " (newTexts.take 5)
      (cmds0, ⟨true, "New content appeared after " ++ toString ((i + 1) * 3) ++ "s: " ++
        summary, some summary⟩)
    else
      let rest := waitForContentLoop env originalTexts fuel (i + 1)
      (cmds0 ++ rest.1, rest.2)

def waitForContent (env : SkillEnv) (elements : List UIElement) :
    List Cmd × ActionResult :=
  let originalTexts := (elements.map (fun el => el.text)).filter (fun t => !t.isEmpty)
  waitForContentLoop env originalTexts 5 0

/-! ### Skill 4: `find_and_tap` -/

/-- Candidate score used by `findMatch`. -/
def matchScore (queryLower : String) (el : UIElement) : Nat :=
  (if el.enabled then 10 else 0) +
    (if el.clickable || el.longClickable then 5 else 0) +
    (if lowerStr el.text = queryLower then 20 else 5)

/-- `findMatch`: case-insensitive substring search over element text, best
score first (JavaScript's stable descending sort, first element taken). -/
def findMatch (elements : List UIElement) (queryLower : String) : Option UIElement :=
  let matched := elements.filter (fun el =>
    !el.text.isEmpty && containsStr (lowerStr el.text) queryLower)
  if matched.isEmpty then none
  else
    let scored := matched.map (fun el => (el, matchScore queryLower el))
    let sorted := stableSort (fun a b => decide (b.2 ≤ a.2)) scored
    sorted.head?.map (fun p => p.1)

/-- The scroll loop of `find_and_tap`: up to `fuel` scrolls; each one swipes,
waits, re-scans (observation number `k`) and re-checks. -/
def scrollSearch (env : SkillEnv) (queryLower : String) :
    Nat → Nat → List Cmd × Option UIElement
  | 0, _ => ([], none)
  | fuel + 1, k =>
    let cmds0 := [scrollCmd env, Cmd.sleep 1500, Cmd.rescan]
    match findMatch (env.rescans k) queryLower with
    | some el => (cmds0, some el)
    | none =>
      let rest := scrollSearch env queryLower fuel (k + 1)
      (cmds0 ++ rest.1, rest.2)

def findAndTap (env : SkillEnv) (decision : ActionDecision)
    (elements : List UIElement) : List Cmd × ActionResult :=
  match decision.query with
  | none => ([], ⟨false, "find_and_tap requires a query", none⟩)
  | some query =>
    if query.isEmpty then ([], ⟨false, "find_and_tap requires a query", none⟩)
    else
      let queryLower := lowerStr query
      let first := findMatch elements queryLower
      let searched :=
        match first with
        | some el => (([] : List Cmd), some el)
        | none => scrollSearch env queryLower 10 0
      match searched.2 with
      | none =>
        let available := ((elements.filter (fun el => !el.text.isEmpty)).map
          (fun el => el.text)).take 15
        (searched.1, ⟨false, "No element matching \"" ++ query ++
          "\" found after scrolling. Available: " ++
          String.intercalate ", " available, none⟩)
      | some best =>
        let x := best.center.1
        let y := best.center.2
        (searched.1 ++ [Cmd.tap x y],
          ⟨true, "Found and tapped \"" ++ best.text ++ "\" at (" ++ toString x ++
            ", " ++ toString y ++ ")", some best.text⟩)

/-! ### Skill 5: `compose_email` -/

/-- JavaScript `\w` (ASCII word character). -/
def isWordChar (c : Char) : Bool := c.isAlphanum || c == '_'

def isLocalChar (c : Char) : Bool := isWordChar c || c == '.' || c == '+' || c == '-'

def isDomChar (c : Char) : Bool := isWordChar c || c == '.' || c == '-'

/-- Whether the domain run can be split at position `i` as
`[\w.-]+` (of length `i`) `\.` `\w{2,}`. -/
def domSplitOk (run : List Char) : Nat → Bool := fun i =>
  ((run.drop i).head? == some '.') &&
    decide (2 ≤ ((run.drop (i + 1)).takeWhile isWordChar).length)

/-- Greedy backtracking choice of the split point for `[\w.-]+\.\w{2,}`
inside the maximal domain-character run: the largest valid split index,
mirroring the regex engine's greedy `[\w.-]+`. -/
def bestDomSplitAux (run : List Char) : Nat → Option (List Char × List Char)
  | 0 => none
  | i + 1 =>
    if domSplitOk run (i + 1) then
      some (run.take (i + 1), (run.drop (i + 2)).takeWhile isWordChar)
    else bestDomSplitAux run i

def bestDomSplit (run : List Char) : Option (List Char × List Char) :=
  bestDomSplitAux run run.length

/-- Attempt to match `/[\w.+-]+@[\w.-]+\.\w{2,}/` at the start of `l`.
Since `@` is not a local-part character, the greedy `[\w.+-]+` can only
consume the full local run. -/
def emailMatchAt (l : List Char) : Option (List Char) :=
  let loc := l.takeWhile isLocalChar
  if loc.isEmpty then none
  else
    match l.drop loc.length with
    | '@' :: rest =>
      let run := rest.takeWhile isDomChar
      match bestDomSplit run with
      | some (a, w) => some (loc ++ '@' :: (a ++ '.' :: w))
      | none => none
    | _ => none

/-- Leftmost match, as `String.prototype.match` returns it. -/
def extractEmailAux : List Char → Option (List Char)
  | [] => none
  | c :: rest =>
    match emailMatchAt (c :: rest) with
    | some m => some m
    | none => extractEmailAux rest

/-- `extractEmail`: first email-shaped substring of the text, if any. -/
def extractEmail (text : String) : Option String :=
  (extractEmailAux text.toList).map (fun l => String.mk l)

/-- `BODY_FIELD_PATTERN = /body|compose_area|compose_edit|message_content/i`. -/
def bodyFieldPat (s : String) : Bool :=
  let low := lowerStr s
  containsStr low "body" || containsStr low "compose_area" ||
    containsStr low "compose_edit" || containsStr low "message_content"

/-- `BODY_HINT_PATTERN = /compose|body|message|write/i`. -/
def bodyHintPat (s : String) : Bool :=
  let low := lowerStr s
  containsStr low "compose" || containsStr low "body" ||
    containsStr low "message" || containsStr low "write"

/-- `findEmailField`, instantiated the way `composeEmail` calls it: resource
id pattern first, then hint text, then visible text. -/
def findEmailField (editables : List UIElement) (idPat hintPat : String → Bool) :
    Option UIElement :=
  match editables.find? (fun el => idPat el.id) with
  | some el => some el
  | none =>
    match editables.find? (fun el => !el.hint.isEmpty && hintPat el.hint) with
    | some el => some el
    | none => editables.find? (fun el => idPat el.text)

/-- Fallback element for list indexing that the source guards by length
checks. -/
def blankElement : UIElement := {}

def composeEmail (env : SkillEnv) (decision : ActionDecision) :
    List Cmd × ActionResult :=
  let fromQuery : Option String :=
    if truthy decision.query then decision.query else none
  let emailAddress : Option String :=
    match fromQuery with
    | some q => some q
    | none =>
      match decision.text with
      | some body => if truthy decision.text then extractEmail body else none
      | none => none
  match emailAddress with
  | none =>
    ([], ⟨false, "compose_email requires query (email address). Example: " ++
      "\x7b\"action\": \"compose_email\", \"query\": \"user@example.com\"\x7d", none⟩)
  | some addr =>
    let cmds0 := [Cmd.sendtoIntent addr, Cmd.sleep 2500, Cmd.rescan]
    let editables := stableSort (fun a b => decide (a.center.2 ≤ b.center.2))
      ((env.rescans 0).filter (fun el => el.editable && el.enabled))
    if editables.isEmpty then
      (cmds0, ⟨false, "Launched email compose but no editable fields appeared", none⟩)
    else
      let bodyField :=
        match findEmailField editables bodyFieldPat bodyHintPat with
        | some f => f
        | none => editables.getLastD blankElement
      let bx := bodyField.center.1
      let by_ := bodyField.center.2
      let pasteCmds :=
        if truthy decision.text then
          [Cmd.clipboardSet (decision.text.getD ""), Cmd.sleep 200, Cmd.keyevent 279]
        else [Cmd.keyevent 279]
      (cmds0 ++ [Cmd.tap bx by_, Cmd.sleep 300] ++ pasteCmds,
        ⟨true, "Email compose opened to " ++ addr ++ ", body pasted", none⟩)

/-! ### Skills 6/7: `like_nth_comment` / `verify_nth_comment_like` -/

/-- The recorded previous like attempt (the source keeps this in the
module-level mutable `lastCommentLikeAttempt`; here it is explicit state). -/
structure LikeAttempt where
  index : Nat
  y : Int
  x : Int
  countBefore : Option Nat
deriving DecidableEq, Repr

/-- First maximal digit run of a string (the `/\d+/` match). -/
def firstDigitRun : List Char → Option (List Char)
  | [] => none
  | c :: rest =>
    if c.isDigit then some (c :: rest.takeWhile Char.isDigit)
    else firstDigitRun rest

def digitsToNat (l : List Char) : Nat :=
  l.foldl (fun n c => if c.isDigit then n * 10 + (c.toNat - '0'.toNat) else n) 0

/-- `parseNthCommentIndex`: ordinal parsed from the decision's query or text,
defaulting to 3 when absent or non-positive. -/
def parseNthCommentIndex (decision : ActionDecision) : Nat :=
  let raw := (decision.query.orElse (fun _ => decision.text)).getD ""
  match firstDigitRun raw.toList with
  | none => 3
  | some ds =>
    let n := digitsToNat ds
    if n > 0 then n else 3

/-- Next character after position `i` of `run`, falling through to `after`
when `run` is exhausted. -/
def nextCharAt (run after : List Char) (i : Nat) : Option Char :=
  match run.drop i with
  | [] => after.head?
  | c :: _ => some c

/-- A `\b` word boundary between a last consumed character and the following
character (end of input counts as a non-word side). -/
def boundaryOk (lastC : Char) (next : Option Char) : Bool :=
  isWordChar lastC != (match next with | none => false | some c => isWordChar c)

/-- Greedy backtracking for the `[\d,]*\b` tail of `/\b\d[\d,]*\b/`: longest
prefix of the digit-comma run after which a word boundary holds. -/
def pickGreedyAux (c : Char) (run after : List Char) : Nat → Option (List Char)
  | 0 => if boundaryOk c (nextCharAt run after 0) then some [c] else none
  | k + 1 =>
    let p := run.take (k + 1)
    if boundaryOk (p.getLastD c) (nextCharAt run after (k + 1)) then some (c :: p)
    else pickGreedyAux c run after k

/-- Try to match `/\b\d[\d,]*\b/` at the head of `l`, `prev` being the
character before `l` (for the leading boundary). -/
def matchDigitsAt (prev : Option Char) : List Char → Option (List Char)
  | [] => none
  | c :: rest =>
    if c.isDigit && (match prev with | none => true | some p => !isWordChar p) then
      let run := rest.takeWhile (fun ch => ch.isDigit || ch == ',')
      let after := rest.drop run.length
      pickGreedyAux c run after run.length
    else none

def parseFirstIntAux (prev : Option Char) : List Char → Option (List Char)
  | [] => none
  | c :: rest =>
    match matchDigitsAt prev (c :: rest) with
    | some m => some m
    | none => parseFirstIntAux (some c) rest

/-- `parseFirstInt`: leftmost `/\b\d[\d,]*\b/` match, commas dropped, parsed
as a number. -/
def parseFirstInt (text : String) : Option Nat :=
  (parseFirstIntAux none text.toList).map digitsToNat

/-- `getScreenApprox`: screen extent estimated from element geometry, with
1080×2400 as the floor. -/
def getScreenApprox (elements : List UIElement) : Int × Int :=
  elements.foldl
    (fun acc el =>
      (max acc.1 (el.center.1 + max 0 (Int.fdiv el.size.1 2)),
        max acc.2 (el.center.2 + max 0 (Int.fdiv el.size.2 2))))
    (1080, 2400)

/-- The concatenated haystack `${text} ${id} ${hint}` of an element, lowered. -/
def elementHay (el : UIElement) : String :=
  lowerStr (el.text ++ " " ++ el.id ++ " " ++ el.hint)

/-- `isCommentLikeButton`.  The source keeps elements with
`el.center[0] >= screenWidth * 0.72`; over integer pixel coordinates this is
`25 * x ≥ 18 * width`. -/
def isCommentLikeButton (el : UIElement) (screenWidth : Int) : Bool :=
  let hay := elementHay el
  containsStr hay "like" &&
    !(containsStr hay "video like" || containsStr hay "like video" ||
      containsStr hay "repost") &&
    !(decide (25 * el.center.1 < 18 * screenWidth)) &&
    !(decide (el.center.2 < 900)) &&
    !(decide (el.center.2 > 2300)) &&
    (el.clickable || el.action == "tap" || containsStr (lowerStr el.text) "like or undo like")

/-- The dedup pass of `collectCommentLikeRows`: bucket rows whose vertical
centers are within 24 px, keeping the rightmost candidate per bucket. -/
def dedupRows (rows : List UIElement) : List UIElement → List UIElement
  | [] => rows
  | el :: rest =>
    match rows.findIdx? (fun r => decide ((r.center.2 - el.center.2).natAbs ≤ 24)) with
    | none => dedupRows (rows ++ [el]) rest
    | some i =>
      if el.center.1 > (rows.getD i blankElement).center.1 then
        dedupRows (rows.set i el) rest
      else dedupRows rows rest

def collectCommentLikeRows (elements : List UIElement) : List UIElement :=
  let width := (getScreenApprox elements).1
  let candidates := stableSort
    (fun a b => decide (a.center.2 < b.center.2 ∨
      (a.center.2 = b.center.2 ∧ b.center.1 ≤ a.center.1)))
    (elements.filter (fun el => isCommentLikeButton el width))
  let rows := dedupRows [] candidates
  stableSort (fun a b => decide (a.center.2 ≤ b.center.2)) rows

/-- `findNearbyCommentCount`: first parseable number among text elements on
the same row, to the left of (or slightly right of) the target. -/
def findNearbyCommentCount (elements : List UIElement) (target : UIElement) :
    Option Nat :=
  let nearby := elements.filter (fun el =>
    !el.text.isEmpty &&
      decide ((el.center.2 - target.center.2).natAbs ≤ 70) &&
      !(decide (el.center.1 < target.center.1 - 180)) &&
      !(decide (el.center.1 > target.center.1 + 40)))
  nearby.findSome? (fun el => parseFirstInt el.text)

def jsonNumOpt (o : Option Nat) : String :=
  match o with
  | none => "null"
  | some n => toString n

def likeAttemptJson (x y : Int) (cb : Option Nat) : String :=
  "\x7b\"x\":" ++ toString x ++ ",\"y\":" ++ toString y ++
    ",\"countBefore\":" ++ jsonNumOpt cb ++ "\x7d"

def verifyJson (selectedLike : Bool) (countNow : Option Nat) : String :=
  "\x7b\"selectedLike\":" ++ (if selectedLike then "true" else "false") ++
    ",\"countNow\":" ++ jsonNumOpt countNow ++ "\x7d"

/-- Outcome of one skill dispatch: issued commands, the (possibly updated)
recorded like attempt, and the action result. -/
structure SkillOutcome where
  cmds : List Cmd
  attempt : Option LikeAttempt
  result : ActionResult
deriving DecidableEq, Repr

def likeNthComment (la : Option LikeAttempt) (decision : ActionDecision)
    (elements : List UIElement) : SkillOutcome :=
  let index := parseNthCommentIndex decision
  let rows := collectCommentLikeRows elements
  if rows.length < index then
    ⟨[], la, ⟨false, "Only found " ++ toString rows.length ++
      " visible comment-like buttons; need " ++ toString index, none⟩⟩
  else
    let target := rows.getD (index - 1) blankElement
    let x := target.center.1
    let y := target.center.2
    let countBefore := findNearbyCommentCount elements target
    ⟨[Cmd.tap x y], some ⟨index, y, x, countBefore⟩,
      ⟨true, "Tapped heart for visible comment #" ++ toString index ++ " at (" ++
        toString x ++ ", " ++ toString y ++ ")",
        some (likeAttemptJson x y countBefore)⟩⟩

/-- Row re-location of `verifyNthCommentLike`: when a previous attempt with
the same ordinal is recorded, prefer the row whose vertical center is nearest
the previously tapped y, within 80 px. -/
def relocateTarget (la : Option LikeAttempt) (rows : List UIElement)
    (index : Nat) (t0 : UIElement) : UIElement :=
  match la with
  | none => t0
  | some a =>
    if a.index = index then
      let scored := rows.map (fun r => (r, (r.center.2 - a.y).natAbs))
      match (stableSort (fun p q => decide (p.2 ≤ q.2)) scored).head? with
      | some nearest => if nearest.2 ≤ 80 then nearest.1 else t0
      | none => t0
    else t0

/-- The selected/checked/"undo like"/"liked" signal on the target element. -/
def likeSelectedSignal (el : UIElement) : Bool :=
  el.selected || el.checked || containsStr (elementHay el) "undo like" ||
    containsStr (elementHay el) "liked"

/-- The "nearby numeric label differs from the recorded before-count for this
ordinal" signal: a prior attempt with this ordinal is recorded, it recorded a
before-count, a nearby count is readable now, and the two differ. -/
def likeCountChanged (la : Option LikeAttempt) (index : Nat)
    (countNow : Option Nat) : Bool :=
  match la with
  | none => false
  | some a =>
    decide (a.index = index) &&
      (match a.countBefore, countNow with
       | some b, some n => decide (n ≠ b)
       | _, _ => false)

def verifyNthCommentLike (la : Option LikeAttempt) (decision : ActionDecision)
    (elements : List UIElement) : ActionResult :=
  let index := parseNthCommentIndex decision
  let rows := collectCommentLikeRows elements
  if rows.length < index then
    ⟨false, "Could not verify: only found " ++ toString rows.length ++
      " visible comment-like buttons; need " ++ toString index, none⟩
  else
    let t0 := rows.getD (index - 1) blankElement
    let target :=
      match la with
      | none => t0
      | some a =>
        if a.index = index then
          match (stableSort (fun p q => decide (p.2 ≤ q.2))
              (rows.map (fun r => (r, (r.center.2 - a.y).natAbs)))).head? with
          | some nearest => if nearest.2 ≤ 80 then nearest.1 else t0
          | none => t0
        else t0
    let hay := elementHay target
    let countNow := findNearbyCommentCount elements target
    let selectedLike := target.selected || target.checked ||
      containsStr hay "undo like" || containsStr hay "liked"
    let countChanged :=
      match la with
      | none => false
      | some a =>
        decide (a.index = index) &&
          (match a.countBefore, countNow with
           | some b, some n => decide (n ≠ b)
           | _, _ => false)
    if selectedLike || countChanged then
      ⟨true, "Comment #" ++ toString index ++ " like verified (" ++
        (if selectedLike then "selected" else "count changed") ++ ")",
        some (verifyJson selectedLike countNow)⟩
    else
      ⟨false, "Comment #" ++ toString index ++ " like not confirmed yet",
        some (verifyJson selectedLike countNow)⟩

/-! ### The skill dispatcher -/

def recognizedSkills : List String :=
  ["read_screen", "submit_message", "copy_visible_text", "wait_for_content",
    "find_and_tap", "compose_email", "like_nth_comment", "verify_nth_comment_like"]

/-- `executeSkill`: route a decision to the matching skill; the `skill` field
falls back to the `action` field, and an unrecognized name yields a failing
`ActionResult` naming it. -/
def executeSkill (env : SkillEnv) (la : Option LikeAttempt)
    (decision : ActionDecision) (elements : List UIElement) : SkillOutcome :=
  let skill := decision.skill.getD decision.action
  if skill = "read_screen" then
    let r := readScreen env elements
    ⟨r.1, la, r.2⟩
  else if skill = "submit_message" then
    let r := submitMessage env elements
    ⟨r.1, la, r.2⟩
  else if skill = "copy_visible_text" then
    let r := copyVisibleText decision elements
    ⟨r.1, la, r.2⟩
  else if skill = "wait_for_content" then
    let r := waitForContent env elements
    ⟨r.1, la, r.2⟩
  else if skill = "find_and_tap" then
    let r := findAndTap env decision elements
    ⟨r.1, la, r.2⟩
  else if skill = "compose_email" then
    let r := composeEmail env decision
    ⟨r.1, la, r.2⟩
  else if skill = "like_nth_comment" then
    likeNthComment la decision elements
  else if skill = "verify_nth_comment_like" then
    ⟨[], la, verifyNthCommentLike la decision elements⟩
  else
    ⟨[], la, ⟨false, "Unknown skill: " ++ skill, none⟩⟩

/-! ## Voice capture session (`server/src/ws/voice.ts`)

State is explicit: `sessions` models the module-level `activeSessions` map,
`runningTimers` records for which devices `partialTimer` is a live interval
(so "timer stopped" is an inspectable fact after a session is deleted).
Audio bytes are `Nat`s; the external Groq transcription call is the function
parameter `tr`. -/

def MIN_AUDIO_BYTES : Nat := 3200

structure VoiceSession where
  chunks : List (List Nat)
  totalBytes : Nat
  lastPartialOffset : Nat
deriving DecidableEq, Repr

structure VoiceState where
  sessions : List (String × VoiceSession)
  runningTimers : List String
deriving DecidableEq, Repr

inductive VoiceMsg where
  | transcriptPart (text : String)
  | transcriptFinal (text : String)
deriving DecidableEq, Repr

/-- `Buffer.concat(chunks)`. -/
def concatChunks (chunks : List (List Nat)) : List Nat := chunks.flatten

/-- Start a timer for a device (a set-like list since at most one interval
exists per device). -/
def insertTimer (d : String) (ts : List String) : List String :=
  if d ∈ ts then ts else d :: ts

/-- `cleanupSession`: clear the interval if one is running and drop the
session; no-op when no session exists. -/
def cleanupSession (st : VoiceState) (deviceId : String) : VoiceState :=
  match mapGet st.sessions deviceId with
  | none => st
  | some _ =>
    ⟨mapDelete st.sessions deviceId,
      st.runningTimers.filter (fun x => decide (x ≠ deviceId))⟩

/-- `handleVoiceStart`: clean up any existing session, register a fresh
buffer and start the partial-transcription interval. -/
def handleVoiceStart (st : VoiceState) (deviceId : String) : VoiceState :=
  let st1 := cleanupSession st deviceId
  ⟨mapSet st1.sessions deviceId ⟨[], 0, 0⟩, insertTimer deviceId st1.runningTimers⟩

/-- `handleVoiceChunk`: append decoded bytes, or discard (with a log) when no
session is registered. -/
def handleVoiceChunk (st : VoiceState) (deviceId : String) (data : List Nat) :
    VoiceState :=
  match mapGet st.sessions deviceId with
  | none => st
  | some s =>
    ⟨mapSet st.sessions deviceId
      ⟨s.chunks ++ [data], s.totalBytes + data.length, s.lastPartialOffset⟩,
      st.runningTimers⟩

/-- One firing of the partial-transcription interval: only transcribe when
new bytes arrived since the last partial and the minimum buffer size is met;
an empty transcript is not emitted. -/
def voiceTick (tr : List Nat → String) (st : VoiceState) (deviceId : String) :
    VoiceState × List VoiceMsg :=
  if st.runningTimers.contains deviceId then
    match mapGet st.sessions deviceId with
    | none => (st, [])
    | some s =>
      if s.totalBytes ≤ s.lastPartialOffset then (st, [])
      else if s.totalBytes < MIN_AUDIO_BYTES then (st, [])
      else
        let text := tr (concatChunks s.chunks)
        let st' : VoiceState :=
          ⟨mapSet st.sessions deviceId ⟨s.chunks, s.totalBytes, s.totalBytes⟩,
            st.runningTimers⟩
        (st', if text = "" then [] else [VoiceMsg.transcriptPart text])
  else (st, [])

/-- `handleVoiceSend`: stop the timer, transcribe the full buffer when it
meets the minimum size, always emit one final transcript, and drop the
session.  With no session registered, nothing is emitted. -/
def handleVoiceSend (tr : List Nat → String) (st : VoiceState)
    (deviceId : String) : VoiceState × List VoiceMsg :=
  match mapGet st.sessions deviceId with
  | none => (st, [])
  | some s =>
    let transcript :=
      if s.totalBytes ≥ MIN_AUDIO_BYTES then tr (concatChunks s.chunks) else ""
    (⟨mapDelete st.sessions deviceId,
        st.runningTimers.filter (fun x => decide (x ≠ deviceId))⟩,
      [VoiceMsg.transcriptFinal transcript])

/-- `handleVoiceCancel` is exactly `cleanupSession`. -/
def handleVoiceCancel (st : VoiceState) (deviceId : String) : VoiceState :=
  cleanupSession st deviceId

inductive VoiceEvent where
  | start (d : String)
  | chunk (d : String) (data : List Nat)
  | tick (d : String)
  | send (d : String)
  | cancel (d : String)
deriving DecidableEq, Repr

def voiceStep (tr : List Nat → String) (st : VoiceState) :
    VoiceEvent → VoiceState × List VoiceMsg
  | VoiceEvent.start d => (handleVoiceStart st d, [])
  | VoiceEvent.chunk d data => (handleVoiceChunk st d data, [])
  | VoiceEvent.tick d => voiceTick tr st d
  | VoiceEvent.send d => handleVoiceSend tr st d
  | VoiceEvent.cancel d => (handleVoiceCancel st d, [])

def voiceRun (tr : List Nat → String) (st : VoiceState) :
    List VoiceEvent → VoiceState × List VoiceMsg
  | [] => (st, [])
  | e :: es =>
    let r1 := voiceStep tr st e
    let r2 := voiceRun tr r1.1 es
    (r2.1, r1.2 ++ r2.2)

/-- Well-formedness: the session map has no duplicate device keys and a
running timer always belongs to a registered session. -/
def VoiceWF (st : VoiceState) : Prop :=
  (mapKeys st.sessions).Nodup ∧
    ∀ d ∈ st.runningTimers, mapGet st.sessions d ≠ none

/-! ## Pairing routes (`server/src/routes/pairing.ts`) -/

structure PairingCodeRow where
  id : String
  code : String
  userId : String
  expiresAt : Int
deriving DecidableEq, Repr

structure RateEntry where
  count : Nat
  resetAt : Int
deriving DecidableEq, Repr

/-- `isRateLimited`: sliding 60 s window of at most 5 claim attempts per IP.
Returns the verdict and the updated attempt map. -/
def isRateLimited (m : List (String × RateEntry)) (ip : String) (now : Int) :
    Bool × List (String × RateEntry) :=
  match mapGet m ip with
  | none => (false, mapSet m ip ⟨1, now + 60000⟩)
  | some e =>
    if now > e.resetAt then (false, mapSet m ip ⟨1, now + 60000⟩)
    else (decide (e.count + 1 > 5), mapSet m ip ⟨e.count + 1, e.resetAt⟩)

/-- The `^\d{6}$` format check. -/
def isSixDigits (s : String) : Bool :=
  decide (s.toList.length = 6) && s.toList.all Char.isDigit

/-- The claim lookup: a row with this code that has not expired
(`gt(expiresAt, now)`). -/
def claimLookup (db : List PairingCodeRow) (code : String) (now : Int) :
    Option PairingCodeRow :=
  db.find? (fun r => decide (r.code = code) && decide (now < r.expiresAt))

inductive ClaimResp where
  | tooMany
  | badFormat
  | invalidOrExpired
  | claimed (userId : String)
deriving DecidableEq, Repr

structure ClaimOutcome where
  resp : ClaimResp
  db : List PairingCodeRow
  rate : List (String × RateEntry)
deriving DecidableEq, Repr

/-- `POST /pairing/claim`: rate limit, format check, lookup of a non-expired
row, API-key creation for the row's user and deletion of the used code. -/
def pairingClaim (db : List PairingCodeRow) (rate : List (String × RateEntry))
    (ip : String) (now : Int) (codeField : Option String) : ClaimOutcome :=
  let rl := isRateLimited rate ip now
  if rl.1 then ⟨ClaimResp.tooMany, db, rl.2⟩
  else
    match codeField with
    | none => ⟨ClaimResp.badFormat, db, rl.2⟩
    | some s =>
      let code := trimStr s
      if !isSixDigits code then ⟨ClaimResp.badFormat, db, rl.2⟩
      else
        match claimLookup db code now with
        | none => ⟨ClaimResp.invalidOrExpired, db, rl.2⟩
        | some row =>
          ⟨ClaimResp.claimed row.userId,
            db.filter (fun r => decide (r.id ≠ row.id)), rl.2⟩

inductive PairStatus where
  | paired
  | notPairedExpired
  | notPairedActive
deriving DecidableEq, Repr

/-- `GET /pairing/status`: paired exactly when no code row remains for the
user; otherwise reports whether the row has expired. -/
def pairingStatus (db : List PairingCodeRow) (userId : String) (now : Int) :
    PairStatus :=
  match db.find? (fun r => decide (r.userId = userId)) with
  | none => PairStatus.paired
  | some row =>
    if row.expiresAt < now then PairStatus.notPairedExpired
    else PairStatus.notPairedActive

/-! ## Goal submission route (`server/src/routes/goals.ts`) -/

structure ConnectedDevice where
  deviceId : String
  persistentDeviceId : Option String
  userId : String
deriving DecidableEq, Repr

/-- An entry of the route's `activeSessions` map (`sessionId` is set to the
`"pending"` placeholder when the loop is started). -/
structure ActiveEntry where
  sessionId : String
  goal : String
deriving DecidableEq, Repr

structure GoalBody where
  deviceId : String
  goal : String
  llmApiKey : Option String
deriving DecidableEq, Repr

inductive GoalResp where
  | badRequest (msg : String)
  | notFound
  | forbidden
  | conflict (sessionId goal : String)
  | started (deviceId goal : String)
deriving DecidableEq, Repr

/-- Device lookup: by connection id first, then by persistent DB id. -/
def lookupDevice (devices : List ConnectedDevice) (id : String) :
    Option ConnectedDevice :=
  match devices.find? (fun d => decide (d.deviceId = id)) with
  | some d => some d
  | none => devices.find? (fun d => decide (d.persistentDeviceId = some id))

/-- The admission key: the persistent device id, or the connection id when
none is assigned. -/
def trackingKey (d : ConnectedDevice) : String :=
  d.persistentDeviceId.getD d.deviceId

/-- `POST /goals`: validation, device lookup, ownership check, admission
check against `activeSessions`, LLM-config resolution (request body, then the
user's stored config, then the environment), then loop start and registration
of the `"pending"` placeholder entry. -/
def submitGoal (devices : List ConnectedDevice)
    (active : List (String × ActiveEntry)) (userId : String) (body : GoalBody)
    (userDbConfig : Option String) (envApiKey : Option String) :
    GoalResp × List (String × ActiveEntry) :=
  if body.deviceId.isEmpty || body.goal.isEmpty then
    (GoalResp.badRequest "deviceId and goal are required", active)
  else
    match lookupDevice devices body.deviceId with
    | none => (GoalResp.notFound, active)
    | some device =>
      if device.userId ≠ userId then (GoalResp.forbidden, active)
      else
        let key := trackingKey device
        match mapGet active key with
        | some existing =>
          (GoalResp.conflict existing.sessionId existing.goal, active)
        | none =>
          if truthy body.llmApiKey then
            (GoalResp.started body.deviceId body.goal,
              mapSet active key ⟨"pending", body.goal⟩)
          else if userDbConfig.isSome then
            (GoalResp.started body.deviceId body.goal,
              mapSet active key ⟨"pending", body.goal⟩)
          else if truthy envApiKey then
            (GoalResp.started body.deviceId body.goal,
              mapSet active key ⟨"pending", body.goal⟩)
          else
            (GoalResp.badRequest
              "No LLM provider configured. Set it up in the web dashboard Settings.",
              active)

/-- Loop termination: both the `.then` and the `.catch` continuation of the
agent-loop promise delete the device's tracking key from `activeSessions`. -/
def releaseGoalSession (active : List (String × ActiveEntry)) (key : String) :
    List (String × ActiveEntry) :=
  mapDelete active key

/-! ## Accessibility capture retry loop
(`DroidClawAccessibilityService.getScreenTree`) -/

def screenTreeDelays : List Nat := [50, 100, 200, 300, 500]

/-- One walk over the delay schedule: `attempts k` is what attempt `k`
observes — `none` when `rootInActiveWindow` is null, otherwise the captured
element list.  An empty capture retries (with the attempt's delay) unless the
delay equals the last schedule entry; a null root always delays and retries.
Returns the delays slept and the element list produced. -/
def getScreenTreeGo {α : Type} (attempts : Nat → Option (List α))
    (lastDelay : Nat) : List Nat → Nat → List Nat × List α
  | [], _ => ([], [])
  | d :: rest, k =>
    match attempts k with
    | some elements =>
      if elements.isEmpty && d < lastDelay then
        let r := getScreenTreeGo attempts lastDelay rest (k + 1)
        (d :: r.1, r.2)
      else ([], elements)
    | none =>
      let r := getScreenTreeGo attempts lastDelay rest (k + 1)
      (d :: r.1, r.2)

def getScreenTree {α : Type} (attempts : Nat → Option (List α)) :
    List Nat × List α :=
  getScreenTreeGo attempts (screenTreeDelays.getLastD 0) screenTreeDelays 0

/-! ## Derived observation helpers and concrete test fixtures -/

/-- Number of swipe (scroll) commands issued before the first tap command. -/
def swipesBeforeFirstTap : List Cmd → Nat
  | [] => 0
  | Cmd.tap _ _ :: _ => 0
  | Cmd.swipe _ _ _ _ _ :: rest => swipesBeforeFirstTap rest + 1
  | _ :: rest => swipesBeforeFirstTap rest

/-- Fixture: a "Settings" row visible on the third observation. -/
def c3SettingsEl : UIElement :=
  { text := "Settings", center := (540, 1200), enabled := true, clickable := true }

/-- Fixture: an unrelated row visible on the first observation. -/
def c3OtherEl : UIElement :=
  { text := "Network", center := (540, 300), enabled := true, clickable := true }

/-- Fixture environment: the first re-scan (second observation) is empty, the
second re-scan (third observation) shows the Settings row. -/
def c3Env : SkillEnv :=
  { rescans := fun k => if k = 1 then [c3SettingsEl] else [],
    swipeUp := (540, 1600, 540, 400), swipeDurationMs := 300 }

def c3Decision : ActionDecision := { action := "find_and_tap", query := some "Settings" }

/-- Fixture: one 800-byte audio chunk. -/
def voiceChunkData : List Nat := List.replicate 800 0

/-- The full 4000-byte buffer accumulated from five chunks. -/
def voiceBuf : List Nat :=
  concatChunks [voiceChunkData, voiceChunkData, voiceChunkData, voiceChunkData,
    voiceChunkData]

/-- Fixture trace: start, two chunks in the first timer interval (the first
tick sees 1600 < 3200 bytes and stays silent), three more chunks in the next
interval, a tick that produces the one partial, an idle tick (no new bytes),
then `voice_send`. -/
def voiceSendEvents : List VoiceEvent :=
  [VoiceEvent.start "device-1",
    VoiceEvent.chunk "device-1" voiceChunkData,
    VoiceEvent.chunk "device-1" voiceChunkData,
    VoiceEvent.tick "device-1",
    VoiceEvent.chunk "device-1" voiceChunkData,
    VoiceEvent.chunk "device-1" voiceChunkData,
    VoiceEvent.chunk "device-1" voiceChunkData,
    VoiceEvent.tick "device-1",
    VoiceEvent.tick "device-1",
    VoiceEvent.send "device-1"]

/-- The same trace with `voice_cancel` instead of `voice_send`, followed by
two more timer slots (the interval is stopped, so they cannot fire). -/
def voiceCancelEvents : List VoiceEvent :=
  [VoiceEvent.start "device-1",
    VoiceEvent.chunk "device-1" voiceChunkData,
    VoiceEvent.chunk "device-1" voiceChunkData,
    VoiceEvent.tick "device-1",
    VoiceEvent.chunk "device-1" voiceChunkData,
    VoiceEvent.chunk "device-1" voiceChunkData,
    VoiceEvent.chunk "device-1" voiceChunkData,
    VoiceEvent.tick "device-1",
    VoiceEvent.tick "device-1",
    VoiceEvent.cancel "device-1",
    VoiceEvent.tick "device-1",
    VoiceEvent.tick "device-1"]

/-- Fixture transcriber for the voice witness. -/
def c4Tr : List Nat → String := fun _ => "hello world"

/-- Fixture: enabled but not clickable, with inferred action `tap` and a
matching "Send" label. -/
def c5Element : UIElement :=
  { text := "Send", enabled := true, clickable := false, action := "tap" }

def c5Env : SkillEnv := { rescans := fun _ => [] }

/-- Fixture: every capture attempt sees a null root. -/
def c6AllNone : Nat → Option (List Nat) := fun _ => none

/-- Fixture: null root, then a root with no elements, then a non-empty
capture. -/
def c6Mix : Nat → Option (List Nat) :=
  fun k => if k = 2 then some [7] else if k = 1 then some [] else none

/-- Fixture like row for the verification witness. -/
def c7LikeEl : UIElement :=
  { text := "Like", center := (1000, 1010), size := (40, 40), enabled := true,
    clickable := true }

/-- Fixture numeric label next to the like row. -/
def c7CountEl : UIElement := { text := "6 likes", center := (900, 1005), size := (80, 30) }

def c7Decision : ActionDecision :=
  { action := "verify_nth_comment_like", query := some "1" }

def c7Attempt : LikeAttempt := { index := 1, y := 1000, x := 1000, countBefore := some 5 }

/-- Fixture voice state with one registered session and running timer. -/
def c9State : VoiceState :=
  { sessions := [("device-1", { chunks := [], totalBytes := 0, lastPartialOffset := 0 })],
    runningTimers := ["device-1"] }

/-- Fixture connected device with a persistent id. -/
def c1Device : ConnectedDevice :=
  { deviceId := "conn-1", persistentDeviceId := some "persist-1", userId := "user-1" }

/-- Fixture active-session map: an agent already running on that device. -/
def c1Active : List (String × ActiveEntry) :=
  [("persist-1", { sessionId := "pending", goal := "open the mail app" })]

/-- Fixture goal submission carrying its own LLM key. -/
def c1Body : GoalBody :=
  { deviceId := "conn-1", goal := "check the weather", llmApiKey := some "sk-test" }

/-- Fixture pairing-code row. -/
def c2Row : PairingCodeRow :=
  { id := "row-1", code := "123456", userId := "user-1", expiresAt := 1000 }


/-! ## Helper lemmas -/

theorem length_insertLe {α : Type} (le : α → α → Bool) (x : α) (l : List α) :
    (insertLe le x l).length = l.length + 1 := by
  induction l with
  | nil => rfl
  | cons y ys ih =>
    by_cases h : le x y = true
    · simp [insertLe, h]
    · simp [insertLe, h, ih]

theorem length_stableSort {α : Type} (le : α → α → Bool) (l : List α) :
    (stableSort le l).length = l.length := by
  induction l with
  | nil => rfl
  | cons x xs ih => simp [stableSort, length_insertLe, ih]

theorem mem_insertLe {α : Type} (le : α → α → Bool) (x a : α) (l : List α) :
    a ∈ insertLe le x l ↔ a = x ∨ a ∈ l := by
  induction l with
  | nil => simp [insertLe]
  | cons y ys ih =>
    by_cases h : le x y = true
    · rw [insertLe, if_pos h]
      simp only [List.mem_cons]
    · rw [insertLe, if_neg h]
      simp only [List.mem_cons, ih]
      tauto

theorem mem_stableSort {α : Type} (le : α → α → Bool) (a : α) (l : List α) :
    a ∈ stableSort le l ↔ a ∈ l := by
  induction l with
  | nil => simp [stableSort]
  | cons x xs ih => simp [stableSort, mem_insertLe, ih]

theorem mapGet_mapDelete_self {β : Type} (m : List (String × β)) (k : String) :
    mapGet (mapDelete m k) k = none := by
  induction m with
  | nil => rfl
  | cons p ps ih =>
    by_cases h : p.1 = k
    · rw [mapDelete, if_pos h]
      exact ih
    · rw [mapDelete, if_neg h, mapGet, if_neg h]
      exact ih

theorem mapGet_mapDelete_ne {β : Type} (m : List (String × β)) (k x : String)
    (h : x ≠ k) : mapGet (mapDelete m k) x = mapGet m x := by
  induction m with
  | nil => rfl
  | cons p ps ih =>
    by_cases hp : p.1 = k
    · have hx : ¬ p.1 = x := by
        rw [hp]
        exact fun hc => h hc.symm
      rw [mapDelete, if_pos hp, mapGet, if_neg hx]
      exact ih
    · by_cases hx : p.1 = x
      · rw [mapDelete, if_neg hp, mapGet, if_pos hx, mapGet, if_pos hx]
      · rw [mapDelete, if_neg hp, mapGet, if_neg hx, mapGet, if_neg hx]
        exact ih

theorem mapGet_mapSet_self {β : Type} (m : List (String × β)) (k : String)
    (v : β) : mapGet (mapSet m k v) k = some v := by
  induction m with
  | nil => simp [mapGet, mapSet]
  | cons p ps ih =>
    by_cases hp : p.1 = k
    · rw [mapSet, if_pos hp, mapGet, if_pos rfl]
    · rw [mapSet, if_neg hp, mapGet, if_neg hp]
      exact ih

theorem mapGet_mapSet_ne {β : Type} (m : List (String × β)) (k x : String)
    (v : β) (h : x ≠ k) : mapGet (mapSet m k v) x = mapGet m x := by
  have hkx : ¬ (k = x) := fun hc => h hc.symm
  induction m with
  | nil => simp [mapGet, mapSet, hkx]
  | cons p ps ih =>
    by_cases hp : p.1 = k
    · have hpx : ¬ p.1 = x := by
        rw [hp]
        exact hkx
      rw [mapSet, if_pos hp, mapGet, if_neg hkx, mapGet, if_neg hpx]
    · by_cases hx : p.1 = x
      · rw [mapSet, if_neg hp, mapGet, if_pos hx, mapGet, if_pos hx]
      · rw [mapSet, if_neg hp, mapGet, if_neg hx, mapGet, if_neg hx]
        exact ih

theorem mem_mapKeys_mapDelete {β : Type} (m : List (String × β)) (k x : String)
    (h : x ∈ mapKeys (mapDelete m k)) : x ∈ mapKeys m := by
  induction m with
  | nil => exact absurd h (by simp [mapKeys, mapDelete])
  | cons p ps ih =>
    by_cases hp : p.1 = k
    · rw [mapDelete, if_pos hp] at h
      exact List.mem_cons_of_mem _ (ih h)
    · rw [mapDelete, if_neg hp] at h
      rcases List.mem_cons.mp h with h1 | h2
      · exact List.mem_cons.mpr (Or.inl h1)
      · exact List.mem_cons_of_mem _ (ih h2)

theorem nodup_mapKeys_mapDelete {β : Type} (m : List (String × β)) (k : String)
    (h : (mapKeys m).Nodup) : (mapKeys (mapDelete m k)).Nodup := by
  induction m with
  | nil => simp [mapKeys, mapDelete]
  | cons p ps ih =>
    rw [mapKeys, List.map_cons, List.nodup_cons] at h
    by_cases hp : p.1 = k
    · rw [mapDelete, if_pos hp]
      exact ih h.2
    · rw [mapDelete, if_neg hp, mapKeys, List.map_cons, List.nodup_cons]
      exact ⟨fun hc => h.1 (mem_mapKeys_mapDelete ps k p.1 hc), ih h.2⟩

theorem mem_mapKeys_mapSet {β : Type} (m : List (String × β)) (k x : String)
    (v : β) : x ∈ mapKeys (mapSet m k v) ↔ x = k ∨ x ∈ mapKeys m := by
  induction m with
  | nil => simp [mapKeys, mapSet]
  | cons p ps ih =>
    by_cases hp : p.1 = k
    · rw [mapSet, if_pos hp]
      simp only [mapKeys, List.map_cons, List.mem_cons, hp]
      tauto
    · rw [mapSet, if_neg hp]
      simp only [mapKeys, List.map_cons, List.mem_cons]
      rw [show List.map Prod.fst (mapSet ps k v) = mapKeys (mapSet ps k v) from rfl, ih]
      simp only [mapKeys]
      tauto

theorem nodup_mapKeys_mapSet {β : Type} (m : List (String × β)) (k : String)
    (v : β) (h : (mapKeys m).Nodup) : (mapKeys (mapSet m k v)).Nodup := by
  induction m with
  | nil => simp [mapKeys, mapSet]
  | cons p ps ih =>
    rw [mapKeys, List.map_cons, List.nodup_cons] at h
    by_cases hp : p.1 = k
    · rw [mapSet, if_pos hp, mapKeys, List.map_cons, List.nodup_cons]
      exact ⟨fun hc => h.1 (hp ▸ hc), h.2⟩
    · rw [mapSet, if_neg hp, mapKeys, List.map_cons, List.nodup_cons]
      refine ⟨?_, ih h.2⟩
      intro hc
      rw [show List.map Prod.fst (mapSet ps k v) = mapKeys (mapSet ps k v) from rfl] at hc
      rcases (mem_mapKeys_mapSet ps k p.1 v).mp hc with h1 | h2
      · exact hp h1
      · exact h.1 h2

/-! ## Claim theorems -/

/-- C8: for every decision whose skill/action kind is not one of the
recognized skill names, the skill dispatcher returns an `ActionResult` with
`success = false` and a message identifying the unknown kind, issues no
commands, leaves the recorded like attempt unchanged, and (being a total
function) neither throws nor silently no-ops. -/
theorem executeSkill_unknown_reports (env : SkillEnv) (la : Option LikeAttempt)
    (decision : ActionDecision) (elements : List UIElement)
    (h : decision.skill.getD decision.action ∉ recognizedSkills) :
    executeSkill env la decision elements =
      ⟨[], la,
        ⟨false, "Unknown skill: " ++ decision.skill.getD decision.action, none⟩⟩ := by
  simp only [recognizedSkills, List.mem_cons, List.not_mem_nil, or_false,
    not_or] at h
  obtain ⟨h1, h2, h3, h4, h5, h6, h7, h8⟩ := h
  simp only [executeSkill, if_neg h1, if_neg h2, if_neg h3, if_neg h4, if_neg h5,
    if_neg h6, if_neg h7, if_neg h8]

/-- Witness for C8: the unrecognized kind "fly_to_moon". -/
theorem executeSkill_unknown_reports_witness :
    executeSkill { rescans := fun _ => [] } none { action := "fly_to_moon" } [] =
      ⟨[], none, ⟨false, "Unknown skill: fly_to_moon", none⟩⟩ :=
  executeSkill_unknown_reports { rescans := fun _ => [] } none
    { action := "fly_to_moon" } [] (by decide)

/-- C10: the pairing status endpoint answers `paired` for every user with no
pairing-code row — whether or not a claim (or even a code creation) ever
happened. -/
theorem pairingStatus_paired_of_no_record (db : List PairingCodeRow)
    (user : String) (now : Int) (h : ∀ r ∈ db, r.userId ≠ user) :
    pairingStatus db user now = PairStatus.paired := by
  unfold pairingStatus
  have hfind : db.find? (fun r => decide (r.userId = user)) = none := by
    rw [List.find?_eq_none]
    intro r hr
    simp [h r hr]
  rw [hfind]

/-- Witness for C10: a user with an empty pairing table — no claim ever
occurred, yet the status is `paired`. -/
theorem pairingStatus_paired_of_no_record_witness :
    pairingStatus [] "user-1" 0 = PairStatus.paired :=
  pairingStatus_paired_of_no_record [] "user-1" 0 (by decide)

/-- C6: the capture loop retries null roots with the increasing delays
50/100/200/300/500 ms and returns an empty list only once all five attempts
are exhausted (`attemptsA`); and whenever an attempt (preceded only by null
roots or empty captures) yields a root with a non-empty element list, that
list is returned (`attemptsB`). -/
theorem getScreenTree_retry {α : Type} (attemptsA attemptsB : Nat → Option (List α))
    (j : Nat) (els : List α)
    (hA : ∀ k, k < 5 → attemptsA k = none)
    (hB : ∀ k, k < j → attemptsB k = none ∨ attemptsB k = some [])
    (hBj : attemptsB j = some els) (hne : els ≠ []) (hj : j < 5) :
    getScreenTree attemptsA = ([50, 100, 200, 300, 500], ([] : List α)) ∧
      (getScreenTree attemptsB).2 = els := by
  constructor
  · simp [getScreenTree, getScreenTreeGo, screenTreeDelays,
      hA 0 (by norm_num), hA 1 (by norm_num), hA 2 (by norm_num),
      hA 3 (by norm_num), hA 4 (by norm_num)]
  · have hEls : els.isEmpty = false := by
      cases els with
      | nil => exact absurd rfl hne
      | cons a l => rfl
    interval_cases j
    · simp [getScreenTree, getScreenTreeGo, screenTreeDelays, hBj, hEls]
    · rcases hB 0 (by norm_num) with h0 | h0 <;>
        simp [getScreenTree, getScreenTreeGo, screenTreeDelays, h0, hBj, hEls]
    · rcases hB 0 (by norm_num) with h0 | h0 <;>
        rcases hB 1 (by norm_num) with h1 | h1 <;>
        simp [getScreenTree, getScreenTreeGo, screenTreeDelays, h0, h1, hBj, hEls]
    · rcases hB 0 (by norm_num) with h0 | h0 <;>
        rcases hB 1 (by norm_num) with h1 | h1 <;>
        rcases hB 2 (by norm_num) with h2 | h2 <;>
        simp [getScreenTree, getScreenTreeGo, screenTreeDelays, h0, h1, h2, hBj, hEls]
    · rcases hB 0 (by norm_num) with h0 | h0 <;>
        rcases hB 1 (by norm_num) with h1 | h1 <;>
        rcases hB 2 (by norm_num) with h2 | h2 <;>
        rcases hB 3 (by norm_num) with h3 | h3 <;>
        simp [getScreenTree, getScreenTreeGo, screenTreeDelays, h0, h1, h2, h3, hBj, hEls]

/-- Witness for C6: all-null attempts exhaust all five delays; a non-empty
capture on the third attempt is returned as-is. -/
theorem getScreenTree_retry_witness :
    getScreenTree c6AllNone = ([50, 100, 200, 300, 500], ([] : List Nat)) ∧
      (getScreenTree c6Mix).2 = [7] := by
  have h := getScreenTree_retry c6AllNone c6Mix 2 [7]
    (fun k _ => rfl)
    (fun k hk => by
      match k, hk with
      | 0, _ => exact Or.inl rfl
      | 1, _ => exact Or.inr rfl)
    rfl (by decide) (by decide)
  exact h

/-- Counterexample to C5 as stated: `c5Element` is enabled but not clickable
(so the list has zero enabled-and-clickable elements), yet its inferred
action kind `"tap"` and "Send" label satisfy the first candidate filter of
`submitMessage`, which then taps it and reports success. -/
theorem submitMessage_counterexample :
    ([c5Element].filter (fun el => el.enabled && el.clickable)).length = 0 ∧
      (submitMessage c5Env [c5Element]).2.success = true := by
  constructor
  · rfl
  · rfl

/-- C5 (amended): for every element list with zero enabled-and-clickable
elements **and** zero enabled elements of inferred action kind `"tap"` whose
text or id matches the send/submit pattern, `submit_message` fails with the
message naming the missing Send/Submit button. -/
theorem submitMessage_no_candidates_fails (env : SkillEnv)
    (elements : List UIElement)
    (h1 : ∀ el ∈ elements, ¬(el.enabled = true ∧ el.clickable = true))
    (h2 : ∀ el ∈ elements, ¬(el.enabled = true ∧ el.action = "tap" ∧
      (sendButtonPat el.text = true ∨ sendButtonPat el.id = true))) :
    submitMessage env elements =
      ([], ⟨false, "Could not find a Send/Submit button on screen", none⟩) := by
  have hc1 : elements.filter (fun el =>
      el.enabled && (el.clickable || el.action == "tap") &&
        (sendButtonPat el.text || sendButtonPat el.id)) = [] := by
    rw [List.filter_eq_nil_iff]
    intro el hel hcond
    simp only [Bool.and_eq_true, Bool.or_eq_true, beq_iff_eq] at hcond
    rcases hcond with ⟨⟨he, hclick | htap⟩, hpat⟩
    · exact h1 el hel ⟨he, hclick⟩
    · exact h2 el hel ⟨he, htap, hpat⟩
  have hc2 : elements.filter (fun el => el.enabled && el.clickable) = [] := by
    rw [List.filter_eq_nil_iff]
    intro el hel hcond
    simp only [Bool.and_eq_true] at hcond
    exact h1 el hel hcond
  simp [submitMessage, submitFallback, hc1, hc2, stableSort]

/-- Witness for C5 (amended): a text-only screen with no tappable elements. -/
theorem submitMessage_no_candidates_fails_witness :
    submitMessage c5Env [{ text := "hello", enabled := true }] =
      ([], ⟨false, "Could not find a Send/Submit button on screen", none⟩) :=
  submitMessage_no_candidates_fails c5Env [{ text := "hello", enabled := true }]
    (by decide) (by decide)

/-- C1: goal-submission admission control.  While an entry for the device's
tracking key (persistent device id, or connection id if none) is registered,
a submission for that device gets a conflict carrying the registered
session's identity and goal, with no state change; once the running loop's
completion (or error) continuation has released the key, the same submission
is admitted, and it registers the device's key with the placeholder session
entry. -/
theorem goals_admission_control (devices : List ConnectedDevice)
    (active : List (String × ActiveEntry)) (userId : String) (body : GoalBody)
    (device : ConnectedDevice) (e : ActiveEntry)
    (userDbConfig envApiKey : Option String)
    (hb1 : body.deviceId.isEmpty = false) (hb2 : body.goal.isEmpty = false)
    (hdev : lookupDevice devices body.deviceId = some device)
    (hown : device.userId = userId)
    (hactive : mapGet active (trackingKey device) = some e)
    (hllm : truthy body.llmApiKey = true ∨ userDbConfig.isSome = true ∨
      truthy envApiKey = true) :
    submitGoal devices active userId body userDbConfig envApiKey =
      (GoalResp.conflict e.sessionId e.goal, active) ∧
    (submitGoal devices (releaseGoalSession active (trackingKey device)) userId
        body userDbConfig envApiKey).1 =
      GoalResp.started body.deviceId body.goal ∧
    mapGet (submitGoal devices (releaseGoalSession active (trackingKey device))
        userId body userDbConfig envApiKey).2 (trackingKey device) =
      some ⟨"pending", body.goal⟩ := by
  have hrel : mapGet (releaseGoalSession active (trackingKey device))
      (trackingKey device) = none := mapGet_mapDelete_self active (trackingKey device)
  refine ⟨?_, ?_, ?_⟩
  · simp [submitGoal, hb1, hb2, hdev, hown, hactive]
  · rcases hllm with h | h | h <;>
      simp [submitGoal, hb1, hb2, hdev, hown, hrel, h]
  · rcases hllm with h | h | h <;>
      simp [submitGoal, hb1, hb2, hdev, hown, hrel, h, mapGet_mapSet_self]

/-- Witness for C1: with a session registered for `persist-1` the submission
conflicts, carrying that session's identity and goal; after release it is
admitted and re-registers the key. -/
theorem goals_admission_control_witness :
    submitGoal [c1Device] c1Active "user-1" c1Body none none =
      (GoalResp.conflict "pending" "open the mail app", c1Active) ∧
    (submitGoal [c1Device] (releaseGoalSession c1Active (trackingKey c1Device))
        "user-1" c1Body none none).1 =
      GoalResp.started "conn-1" "check the weather" ∧
    mapGet (submitGoal [c1Device] (releaseGoalSession c1Active (trackingKey c1Device))
        "user-1" c1Body none none).2 (trackingKey c1Device) =
      some ⟨"pending", "check the weather"⟩ :=
  goals_admission_control [c1Device] c1Active "user-1" c1Body c1Device
    ⟨"pending", "open the mail app"⟩ none none rfl rfl (by decide) rfl rfl
    (Or.inl (by decide))

/-- C2: pairing codes are single-use.  After a successful claim deletes the
code's row (codes are unique by the schema's UNIQUE constraint, hypothesis
`huniq`), a second, not-rate-limited claim of the same code answers
invalid-or-expired; and the status endpoint reports paired exactly when no
pairing-code row exists for the user. -/
theorem pairing_claim_single_use (db : List PairingCodeRow)
    (rate : List (String × RateEntry)) (ip : String) (now : Int) (code : String)
    (u : String) (rate2 : List (String × RateEntry)) (ip2 : String) (now2 : Int)
    (db' : List PairingCodeRow) (user : String) (now' : Int)
    (huniq : ∀ r1 ∈ db, ∀ r2 ∈ db, r1.code = r2.code → r1.id = r2.id)
    (h1 : (pairingClaim db rate ip now (some code)).resp = ClaimResp.claimed u)
    (h2 : (isRateLimited rate2 ip2 now2).1 = false) :
    (pairingClaim (pairingClaim db rate ip now (some code)).db rate2 ip2 now2
        (some code)).resp = ClaimResp.invalidOrExpired ∧
    (pairingStatus db' user now' = PairStatus.paired ↔
      db'.all (fun r => decide (r.userId ≠ user)) = true) := by
  constructor
  · by_cases hrl : (isRateLimited rate ip now).1
    · simp [pairingClaim, hrl] at h1
    · by_cases hfmt : isSixDigits (trimStr code)
      · cases hlook : claimLookup db (trimStr code) now with
        | none => simp [pairingClaim, hrl, hfmt, hlook] at h1
        | some row =>
          have hdb : (pairingClaim db rate ip now (some code)).db =
              db.filter (fun r => decide (r.id ≠ row.id)) := by
            simp [pairingClaim, hrl, hfmt, hlook]
          have hrow_mem : row ∈ db := List.mem_of_find?_eq_some hlook
          have hrow_pred := List.find?_some hlook
          have hrow_code : row.code = trimStr code := by
            simp only [Bool.and_eq_true, decide_eq_true_eq] at hrow_pred
            exact hrow_pred.1
          have hlook2 : claimLookup (db.filter (fun r => decide (r.id ≠ row.id)))
              (trimStr code) now2 = none := by
            rw [claimLookup, List.find?_eq_none]
            intro r hr hcond
            have hmem := List.mem_filter.mp hr
            have hr_ne : r.id ≠ row.id := by
              have := hmem.2
              simpa using this
            simp only [Bool.and_eq_true, decide_eq_true_eq] at hcond
            exact hr_ne (huniq r hmem.1 row hrow_mem (hcond.1.trans hrow_code.symm))
          rw [hdb]
          simp only [ne_eq, decide_not] at hlook2
          simp [pairingClaim, h2, hfmt, hlook2]
      · simp [pairingClaim, hrl, hfmt] at h1
  · cases hf : db'.find? (fun r => decide (r.userId = user)) with
    | none =>
      simp only [pairingStatus, hf]
      constructor
      · intro _
        rw [List.all_eq_true]
        intro r hr
        have := List.find?_eq_none.mp hf r hr
        simpa using this
      · intro _
        trivial
    | some row =>
      have hmem := List.mem_of_find?_eq_some hf
      have hru : row.userId = user := by
        have := List.find?_some hf
        simpa using this
      have hallf : db'.all (fun r => decide (r.userId ≠ user)) = false := by
        rw [Bool.eq_false_iff]
        intro hall
        rw [List.all_eq_true] at hall
        have hd := hall row hmem
        rw [decide_eq_true_eq] at hd
        exact hd hru
      have hlhs : pairingStatus db' user now' ≠ PairStatus.paired := by
        simp only [pairingStatus, hf]
        by_cases hex : row.expiresAt < now' <;> simp [hex]
      rw [hallf]
      constructor
      · intro hcc
        exact absurd hcc hlhs
      · intro hcc
        exact absurd hcc (by simp)

/-- Witness for C2: code "123456" claimed at time 0 succeeds, a second claim
of the same code then reports invalid-or-expired, and while the row exists
the status is not paired. -/
theorem pairing_claim_single_use_witness :
    (pairingClaim (pairingClaim [c2Row] [] "ip" 0 (some "123456")).db [] "ip" 0
        (some "123456")).resp = ClaimResp.invalidOrExpired ∧
    (pairingStatus [c2Row] "user-1" 0 = PairStatus.paired ↔
      [c2Row].all (fun r => decide (r.userId ≠ "user-1")) = true) :=
  pairing_claim_single_use [c2Row] [] "ip" 0 "123456" "user-1" [] "ip" 0
    [c2Row] "user-1" 0 (by decide) (by decide) (by decide)

/-! ### Voice-session invariant lemmas -/

theorem timerInv_mapSet {β : Type} (sessions : List (String × β))
    (timers : List String) (k : String) (v : β)
    (h : ∀ x ∈ timers, mapGet sessions x ≠ none) :
    ∀ x ∈ timers, mapGet (mapSet sessions k v) x ≠ none := by
  intro x hx
  by_cases hxk : x = k
  · rw [hxk, mapGet_mapSet_self]
    simp
  · rw [mapGet_mapSet_ne _ _ _ _ hxk]
    exact h x hx

theorem timerInv_mapDelete {β : Type} (sessions : List (String × β))
    (timers : List String) (k : String)
    (h : ∀ x ∈ timers, mapGet sessions x ≠ none) :
    ∀ x ∈ timers.filter (fun x => decide (x ≠ k)),
      mapGet (mapDelete sessions k) x ≠ none := by
  intro x hx
  have hmem := List.mem_filter.mp hx
  have hxk : x ≠ k := by simpa using hmem.2
  rw [mapGet_mapDelete_ne _ _ _ hxk]
  exact h x hmem.1

theorem mem_insertTimer (d x : String) (ts : List String) :
    x ∈ insertTimer d ts ↔ x = d ∨ x ∈ ts := by
  unfold insertTimer
  by_cases h : d ∈ ts
  · rw [if_pos h]
    constructor
    · exact Or.inr
    · rintro (rfl | hx)
      · exact h
      · exact hx
  · rw [if_neg h]
    exact List.mem_cons

theorem voiceWF_cleanup (st : VoiceState) (d : String) (hwf : VoiceWF st) :
    VoiceWF (cleanupSession st d) := by
  unfold cleanupSession
  cases hm : mapGet st.sessions d with
  | none => exact hwf
  | some s =>
    exact ⟨nodup_mapKeys_mapDelete st.sessions d hwf.1,
      timerInv_mapDelete st.sessions st.runningTimers d hwf.2⟩

theorem voiceWF_start (st : VoiceState) (d : String) (hwf : VoiceWF st) :
    VoiceWF (handleVoiceStart st d) := by
  have hwf1 := voiceWF_cleanup st d hwf
  unfold handleVoiceStart
  refine ⟨nodup_mapKeys_mapSet _ d _ hwf1.1, ?_⟩
  intro x hx
  rcases (mem_insertTimer d x _).mp hx with rfl | hx'
  · rw [mapGet_mapSet_self]
    simp
  · exact timerInv_mapSet _ _ d _ hwf1.2 x hx'

/-- C9: voice-session teardown.  Any step from a well-formed state keeps the
state well-formed (in particular the session map never holds two sessions for
one device); after `voice_send` or `voice_cancel` no session remains for the
device and its partial timer is stopped; and a `voice_chunk` for a device with
no registered session changes nothing and emits nothing. -/
theorem voice_session_teardown (tr : List Nat → String) (st : VoiceState)
    (e : VoiceEvent) (d d2 : String) (data : List Nat)
    (hwf : VoiceWF st) (hno : mapGet st.sessions d2 = none) :
    VoiceWF (voiceStep tr st e).1 ∧
    mapGet (voiceStep tr st (VoiceEvent.send d)).1.sessions d = none ∧
    d ∉ (voiceStep tr st (VoiceEvent.send d)).1.runningTimers ∧
    mapGet (voiceStep tr st (VoiceEvent.cancel d)).1.sessions d = none ∧
    d ∉ (voiceStep tr st (VoiceEvent.cancel d)).1.runningTimers ∧
    voiceStep tr st (VoiceEvent.chunk d2 data) = (st, []) := by
  have hsend : ∀ dev : String,
      mapGet (voiceStep tr st (VoiceEvent.send dev)).1.sessions dev = none ∧
        dev ∉ (voiceStep tr st (VoiceEvent.send dev)).1.runningTimers := by
    intro dev
    simp only [voiceStep, handleVoiceSend]
    cases hm : mapGet st.sessions dev with
    | none =>
      refine ⟨hm, fun hmem => ?_⟩
      exact hwf.2 dev hmem hm
    | some s =>
      refine ⟨mapGet_mapDelete_self st.sessions dev, fun hmem => ?_⟩
      have := (List.mem_filter.mp hmem).2
      simp at this
  have hcancel : mapGet (voiceStep tr st (VoiceEvent.cancel d)).1.sessions d = none ∧
      d ∉ (voiceStep tr st (VoiceEvent.cancel d)).1.runningTimers := by
    simp only [voiceStep, handleVoiceCancel, cleanupSession]
    cases hm : mapGet st.sessions d with
    | none =>
      refine ⟨hm, fun hmem => ?_⟩
      exact hwf.2 d hmem hm
    | some s =>
      refine ⟨mapGet_mapDelete_self st.sessions d, fun hmem => ?_⟩
      have := (List.mem_filter.mp hmem).2
      simp at this
  have hchunk : voiceStep tr st (VoiceEvent.chunk d2 data) = (st, []) := by
    simp [voiceStep, handleVoiceChunk, hno]
  refine ⟨?_, (hsend d).1, (hsend d).2, hcancel.1, hcancel.2, hchunk⟩
  cases e with
  | start dev => exact voiceWF_start st dev hwf
  | chunk dev cdata =>
    simp only [voiceStep, handleVoiceChunk]
    cases hm : mapGet st.sessions dev with
    | none => exact hwf
    | some s =>
      exact ⟨nodup_mapKeys_mapSet _ dev _ hwf.1,
        timerInv_mapSet _ _ dev _ hwf.2⟩
  | tick dev =>
    simp only [voiceStep, voiceTick]
    by_cases ht : st.runningTimers.contains dev = true
    · rw [if_pos ht]
      cases hm : mapGet st.sessions dev with
      | none => exact hwf
      | some s =>
        dsimp only
        by_cases h1 : s.totalBytes ≤ s.lastPartialOffset
        · rw [if_pos h1]
          exact hwf
        · rw [if_neg h1]
          by_cases h2 : s.totalBytes < MIN_AUDIO_BYTES
          · rw [if_pos h2]
            exact hwf
          · rw [if_neg h2]
            exact ⟨nodup_mapKeys_mapSet _ dev _ hwf.1,
              timerInv_mapSet _ _ dev _ hwf.2⟩
    · rw [if_neg ht]
      exact hwf
  | send dev =>
    simp only [voiceStep, handleVoiceSend]
    cases hm : mapGet st.sessions dev with
    | none => exact hwf
    | some s =>
      exact ⟨nodup_mapKeys_mapDelete _ dev hwf.1,
        timerInv_mapDelete _ _ dev hwf.2⟩
  | cancel dev => exact voiceWF_cleanup st dev hwf

/-- Witness for C9: a state with one live session for `device-1`, a tick
event, and the unregistered device `ghost`. -/
theorem voice_session_teardown_witness :
    VoiceWF (voiceStep c4Tr c9State (VoiceEvent.tick "device-1")).1 ∧
    mapGet (voiceStep c4Tr c9State (VoiceEvent.send "device-1")).1.sessions
      "device-1" = none ∧
    "device-1" ∉ (voiceStep c4Tr c9State (VoiceEvent.send "device-1")).1.runningTimers ∧
    mapGet (voiceStep c4Tr c9State (VoiceEvent.cancel "device-1")).1.sessions
      "device-1" = none ∧
    "device-1" ∉ (voiceStep c4Tr c9State (VoiceEvent.cancel "device-1")).1.runningTimers ∧
    voiceStep c4Tr c9State (VoiceEvent.chunk "ghost" [1, 2, 3]) = (c9State, []) :=
  voice_session_teardown c4Tr c9State (VoiceEvent.tick "device-1") "device-1"
    "ghost" [1, 2, 3] (by constructor <;> decide) (by decide)

/-! ### `find_and_tap` lemmas -/

theorem findMatch_eq_none (l : List UIElement) (q : String)
    (h : ∀ el ∈ l, containsStr (lowerStr el.text) q = false) :
    findMatch l q = none := by
  have hf : l.filter (fun el => !el.text.isEmpty &&
      containsStr (lowerStr el.text) q) = [] := by
    rw [List.filter_eq_nil_iff]
    intro el hel hcond
    simp only [Bool.and_eq_true] at hcond
    rw [h el hel] at hcond
    exact absurd hcond.2 (by simp)
  simp [findMatch, hf]

theorem findMatch_some (l : List UIElement) (q : String) (el0 : UIElement)
    (h0 : el0 ∈ l) (hne : el0.text.isEmpty = false)
    (hc : containsStr (lowerStr el0.text) q = true) :
    ∃ el, findMatch l q = some el ∧ el ∈ l ∧ el.text.isEmpty = false ∧
      containsStr (lowerStr el.text) q = true := by
  have hmem : el0 ∈ l.filter (fun el => !el.text.isEmpty &&
      containsStr (lowerStr el.text) q) :=
    List.mem_filter.mpr ⟨h0, by simp [hne, hc]⟩
  have hisEmpty : (l.filter (fun el => !el.text.isEmpty &&
      containsStr (lowerStr el.text) q)).isEmpty = false := by
    cases hmm : l.filter (fun el => !el.text.isEmpty &&
        containsStr (lowerStr el.text) q) with
    | nil =>
      rw [hmm] at hmem
      exact absurd hmem (List.not_mem_nil el0)
    | cons a rest => rfl
  cases hs : stableSort (fun a b => decide (b.2 ≤ a.2))
      ((l.filter (fun el => !el.text.isEmpty &&
        containsStr (lowerStr el.text) q)).map
          (fun el => (el, matchScore q el))) with
  | nil =>
    exfalso
    have hlen := length_stableSort (fun a b : UIElement × Nat => decide (b.2 ≤ a.2))
      ((l.filter (fun el => !el.text.isEmpty &&
        containsStr (lowerStr el.text) q)).map (fun el => (el, matchScore q el)))
    rw [hs] at hlen
    simp only [List.length_nil, List.length_map] at hlen
    cases hmm : l.filter (fun el => !el.text.isEmpty &&
        containsStr (lowerStr el.text) q) with
    | nil =>
      rw [hmm] at hmem
      exact absurd hmem (List.not_mem_nil el0)
    | cons a rest =>
      rw [hmm] at hlen
      simp at hlen
  | cons p rest =>
    have hpmem : p ∈ stableSort (fun a b : UIElement × Nat => decide (b.2 ≤ a.2))
        ((l.filter (fun el => !el.text.isEmpty &&
          containsStr (lowerStr el.text) q)).map (fun el => (el, matchScore q el))) := by
      rw [hs]
      exact List.mem_cons_self p rest
    have hpmem2 := (mem_stableSort _ _ _).mp hpmem
    obtain ⟨el, helmem, heq⟩ := List.mem_map.mp hpmem2
    have hpel : p.1 = el := by rw [← heq]
    have hfl := List.mem_filter.mp helmem
    have hpred := hfl.2
    simp only [Bool.and_eq_true] at hpred
    refine ⟨p.1, ?_, ?_, ?_, ?_⟩
    · simp only [findMatch, hisEmpty, Bool.false_eq_true, if_false, hs]
      rfl
    · rw [hpel]
      exact hfl.1
    · rw [hpel]
      simpa using hpred.1
    · rw [hpel]
      exact hpred.2

/-- C3: `find_and_tap("Settings")` over observations where nothing matches on
the first two screens and something matches on the third taps the matched
element at its third-observation center, reporting success, after exactly two
scroll swipes. -/
theorem find_and_tap_two_scrolls (env : SkillEnv) (decision : ActionDecision)
    (elements : List UIElement)
    (hq : decision.query = some "Settings")
    (h1 : ∀ el ∈ elements, containsStr (lowerStr el.text) "settings" = false)
    (h2 : ∀ el ∈ env.rescans 0, containsStr (lowerStr el.text) "settings" = false)
    (h3 : ∃ el ∈ env.rescans 1, el.text.isEmpty = false ∧
      containsStr (lowerStr el.text) "settings" = true) :
    (findMatch (env.rescans 1) "settings").isSome = true ∧
    (findMatch (env.rescans 1) "settings").getD blankElement ∈ env.rescans 1 ∧
    containsStr (lowerStr ((findMatch (env.rescans 1) "settings").getD
      blankElement).text) "settings" = true ∧
    findAndTap env decision elements =
      ([scrollCmd env, Cmd.sleep 1500, Cmd.rescan, scrollCmd env, Cmd.sleep 1500,
        Cmd.rescan,
        Cmd.tap ((findMatch (env.rescans 1) "settings").getD blankElement).center.1
          ((findMatch (env.rescans 1) "settings").getD blankElement).center.2],
       ⟨true, "Found and tapped \"" ++
          ((findMatch (env.rescans 1) "settings").getD blankElement).text ++
          "\" at (" ++
          toString ((findMatch (env.rescans 1) "settings").getD blankElement).center.1 ++
          ", " ++
          toString ((findMatch (env.rescans 1) "settings").getD blankElement).center.2 ++
          ")",
        some ((findMatch (env.rescans 1) "settings").getD blankElement).text⟩) ∧
    swipesBeforeFirstTap (findAndTap env decision elements).1 = 2 := by
  obtain ⟨el0, h0mem, h0ne, h0c⟩ := h3
  obtain ⟨best, hbest, hbmem, hbne, hbc⟩ :=
    findMatch_some (env.rescans 1) "settings" el0 h0mem h0ne h0c
  have hget : (findMatch (env.rescans 1) "settings").getD blankElement = best := by
    rw [hbest]
    rfl
  have hm1 : findMatch elements "settings" = none := findMatch_eq_none _ _ h1
  have hm2 : findMatch (env.rescans 0) "settings" = none := findMatch_eq_none _ _ h2
  have hlow : lowerStr "Settings" = "settings" := by decide
  have hempty : "Settings".isEmpty = false := rfl
  have hscroll : scrollSearch env "settings" 10 0 =
      ([scrollCmd env, Cmd.sleep 1500, Cmd.rescan, scrollCmd env, Cmd.sleep 1500,
        Cmd.rescan], some best) := by
    show scrollSearch env "settings" (9 + 1) 0 = _
    rw [scrollSearch, hm2]
    show (_ ++ (scrollSearch env "settings" (8 + 1) 1).1,
      (scrollSearch env "settings" (8 + 1) 1).2) = _
    rw [scrollSearch, hbest]
    rfl
  have hft : findAndTap env decision elements =
      ([scrollCmd env, Cmd.sleep 1500, Cmd.rescan, scrollCmd env, Cmd.sleep 1500,
        Cmd.rescan, Cmd.tap best.center.1 best.center.2],
       ⟨true, "Found and tapped \"" ++ best.text ++ "\" at (" ++
          toString best.center.1 ++ ", " ++ toString best.center.2 ++ ")",
        some best.text⟩) := by
    simp only [findAndTap, hq, hempty, Bool.false_eq_true, if_false, hlow, hm1,
      hscroll]
    rfl
  rw [hget]
  refine ⟨by rw [hbest]; rfl, hbmem, hbc, hft, ?_⟩
  rw [hft]
  simp [swipesBeforeFirstTap, scrollCmd]

/-- Witness for C3: the Settings row appears only on the third observation. -/
theorem find_and_tap_two_scrolls_witness :
    (findMatch (c3Env.rescans 1) "settings").isSome = true ∧
    (findMatch (c3Env.rescans 1) "settings").getD blankElement ∈ c3Env.rescans 1 ∧
    containsStr (lowerStr ((findMatch (c3Env.rescans 1) "settings").getD
      blankElement).text) "settings" = true ∧
    findAndTap c3Env c3Decision [c3OtherEl] =
      ([scrollCmd c3Env, Cmd.sleep 1500, Cmd.rescan, scrollCmd c3Env,
        Cmd.sleep 1500, Cmd.rescan,
        Cmd.tap ((findMatch (c3Env.rescans 1) "settings").getD blankElement).center.1
          ((findMatch (c3Env.rescans 1) "settings").getD blankElement).center.2],
       ⟨true, "Found and tapped \"" ++
          ((findMatch (c3Env.rescans 1) "settings").getD blankElement).text ++
          "\" at (" ++
          toString ((findMatch (c3Env.rescans 1) "settings").getD blankElement).center.1 ++
          ", " ++
          toString ((findMatch (c3Env.rescans 1) "settings").getD blankElement).center.2 ++
          ")",
        some ((findMatch (c3Env.rescans 1) "settings").getD blankElement).text⟩) ∧
    swipesBeforeFirstTap (findAndTap c3Env c3Decision [c3OtherEl]).1 = 2 :=
  find_and_tap_two_scrolls c3Env c3Decision [c3OtherEl] rfl (by decide)
    (by decide) (by decide)

/-- C7: with enough like rows on screen, `verify_nth_comment_like` succeeds
exactly when the re-located target row (nearest the previously tapped
vertical position within 80 px, when an attempt with the same ordinal is
recorded) carries a selected/checked/"undo like"/"liked" signal or the
nearby numeric label differs from the recorded before-count for that
ordinal; otherwise it reports the like as not yet confirmed rather than
failing hard. -/
theorem verify_nth_comment_like_characterization (la : Option LikeAttempt)
    (decision : ActionDecision) (elements : List UIElement)
    (h : parseNthCommentIndex decision ≤ (collectCommentLikeRows elements).length) :
    (verifyNthCommentLike la decision elements).success =
      (likeSelectedSignal (relocateTarget la (collectCommentLikeRows elements)
          (parseNthCommentIndex decision)
          ((collectCommentLikeRows elements).getD
            (parseNthCommentIndex decision - 1) blankElement)) ||
        likeCountChanged la (parseNthCommentIndex decision)
          (findNearbyCommentCount elements
            (relocateTarget la (collectCommentLikeRows elements)
              (parseNthCommentIndex decision)
              ((collectCommentLikeRows elements).getD
                (parseNthCommentIndex decision - 1) blankElement)))) ∧
    (verifyNthCommentLike la decision elements).message =
      (if likeSelectedSignal (relocateTarget la (collectCommentLikeRows elements)
            (parseNthCommentIndex decision)
            ((collectCommentLikeRows elements).getD
              (parseNthCommentIndex decision - 1) blankElement)) ||
          likeCountChanged la (parseNthCommentIndex decision)
            (findNearbyCommentCount elements
              (relocateTarget la (collectCommentLikeRows elements)
                (parseNthCommentIndex decision)
                ((collectCommentLikeRows elements).getD
                  (parseNthCommentIndex decision - 1) blankElement))) then
         "Comment #" ++ toString (parseNthCommentIndex decision) ++
           " like verified (" ++
           (if likeSelectedSignal (relocateTarget la (collectCommentLikeRows elements)
                (parseNthCommentIndex decision)
                ((collectCommentLikeRows elements).getD
                  (parseNthCommentIndex decision - 1) blankElement)) then
             "selected" else "count changed") ++ ")"
       else
         "Comment #" ++ toString (parseNthCommentIndex decision) ++
           " like not confirmed yet") := by
  have hguard : ¬ ((collectCommentLikeRows elements).length <
      parseNthCommentIndex decision) := Nat.not_lt.mpr h
  have key : verifyNthCommentLike la decision elements =
      (if likeSelectedSignal (relocateTarget la (collectCommentLikeRows elements)
            (parseNthCommentIndex decision)
            ((collectCommentLikeRows elements).getD
              (parseNthCommentIndex decision - 1) blankElement)) ||
          likeCountChanged la (parseNthCommentIndex decision)
            (findNearbyCommentCount elements
              (relocateTarget la (collectCommentLikeRows elements)
                (parseNthCommentIndex decision)
                ((collectCommentLikeRows elements).getD
                  (parseNthCommentIndex decision - 1) blankElement))) then
        ({ success := true,
           message := "Comment #" ++ toString (parseNthCommentIndex decision) ++
             " like verified (" ++
             (if likeSelectedSignal (relocateTarget la (collectCommentLikeRows elements)
                  (parseNthCommentIndex decision)
                  ((collectCommentLikeRows elements).getD
                    (parseNthCommentIndex decision - 1) blankElement)) then
               "selected" else "count changed") ++ ")",
           data := some (verifyJson
             (likeSelectedSignal (relocateTarget la (collectCommentLikeRows elements)
               (parseNthCommentIndex decision)
               ((collectCommentLikeRows elements).getD
                 (parseNthCommentIndex decision - 1) blankElement)))
             (findNearbyCommentCount elements
               (relocateTarget la (collectCommentLikeRows elements)
                 (parseNthCommentIndex decision)
                 ((collectCommentLikeRows elements).getD
                   (parseNthCommentIndex decision - 1) blankElement)))) } : ActionResult)
      else
        ({ success := false,
           message := "Comment #" ++ toString (parseNthCommentIndex decision) ++
             " like not confirmed yet",
           data := some (verifyJson
             (likeSelectedSignal (relocateTarget la (collectCommentLikeRows elements)
               (parseNthCommentIndex decision)
               ((collectCommentLikeRows elements).getD
                 (parseNthCommentIndex decision - 1) blankElement)))
             (findNearbyCommentCount elements
               (relocateTarget la (collectCommentLikeRows elements)
                 (parseNthCommentIndex decision)
                 ((collectCommentLikeRows elements).getD
                   (parseNthCommentIndex decision - 1) blankElement)))) } : ActionResult)) := by
    unfold verifyNthCommentLike
    rw [if_neg hguard]
    rfl
  rw [key]
  cases hB : likeSelectedSignal (relocateTarget la (collectCommentLikeRows elements)
      (parseNthCommentIndex decision)
      ((collectCommentLikeRows elements).getD
        (parseNthCommentIndex decision - 1) blankElement)) ||
    likeCountChanged la (parseNthCommentIndex decision)
      (findNearbyCommentCount elements
        (relocateTarget la (collectCommentLikeRows elements)
          (parseNthCommentIndex decision)
          ((collectCommentLikeRows elements).getD
            (parseNthCommentIndex decision - 1) blankElement))) with
  | false =>
    simp only [hB, Bool.false_eq_true, if_false]
    exact ⟨trivial, trivial⟩
  | true =>
    simp only [hB, if_true]
    exact ⟨trivial, trivial⟩

/-- Witness for C7: a single like row with a recorded attempt for ordinal 1
whose nearby count changed from 5 to 6. -/
theorem verify_nth_comment_like_characterization_witness :
    (verifyNthCommentLike (some c7Attempt) c7Decision [c7LikeEl, c7CountEl]).success =
      (likeSelectedSignal (relocateTarget (some c7Attempt)
          (collectCommentLikeRows [c7LikeEl, c7CountEl])
          (parseNthCommentIndex c7Decision)
          ((collectCommentLikeRows [c7LikeEl, c7CountEl]).getD
            (parseNthCommentIndex c7Decision - 1) blankElement)) ||
        likeCountChanged (some c7Attempt) (parseNthCommentIndex c7Decision)
          (findNearbyCommentCount [c7LikeEl, c7CountEl]
            (relocateTarget (some c7Attempt)
              (collectCommentLikeRows [c7LikeEl, c7CountEl])
              (parseNthCommentIndex c7Decision)
              ((collectCommentLikeRows [c7LikeEl, c7CountEl]).getD
                (parseNthCommentIndex c7Decision - 1) blankElement)))) ∧
    (verifyNthCommentLike (some c7Attempt) c7Decision [c7LikeEl, c7CountEl]).message =
      (if likeSelectedSignal (relocateTarget (some c7Attempt)
            (collectCommentLikeRows [c7LikeEl, c7CountEl])
            (parseNthCommentIndex c7Decision)
            ((collectCommentLikeRows [c7LikeEl, c7CountEl]).getD
              (parseNthCommentIndex c7Decision - 1) blankElement)) ||
          likeCountChanged (some c7Attempt) (parseNthCommentIndex c7Decision)
            (findNearbyCommentCount [c7LikeEl, c7CountEl]
              (relocateTarget (some c7Attempt)
                (collectCommentLikeRows [c7LikeEl, c7CountEl])
                (parseNthCommentIndex c7Decision)
                ((collectCommentLikeRows [c7LikeEl, c7CountEl]).getD
                  (parseNthCommentIndex c7Decision - 1) blankElement))) then
         "Comment #" ++ toString (parseNthCommentIndex c7Decision) ++
           " like verified (" ++
           (if likeSelectedSignal (relocateTarget (some c7Attempt)
                (collectCommentLikeRows [c7LikeEl, c7CountEl])
                (parseNthCommentIndex c7Decision)
                ((collectCommentLikeRows [c7LikeEl, c7CountEl]).getD
                  (parseNthCommentIndex c7Decision - 1) blankElement)) then
             "selected" else "count changed") ++ ")"
       else
         "Comment #" ++ toString (parseNthCommentIndex c7Decision) ++
           " like not confirmed yet") :=
  verify_nth_comment_like_characterization (some c7Attempt) c7Decision
    [c7LikeEl, c7CountEl] (by decide)

set_option maxRecDepth 8000 in
/-- C4: voice-session counting.  Five 800-byte chunks (4000 bytes total,
3200-byte minimum) arriving across more than one timer interval produce
exactly one `transcript_partial` before `voice_send`, and `voice_send` emits
exactly one `transcript_final`; with `voice_cancel` instead, no message
follows the cancel and no `transcript_final` is ever emitted (the partial
interval can no longer fire). -/
theorem voice_partial_final_counts (tr : List Nat → String)
    (h : tr voiceBuf ≠ "") :
    voiceRun tr ⟨[], []⟩ voiceSendEvents =
      (⟨[], []⟩, [VoiceMsg.transcriptPart (tr voiceBuf),
        VoiceMsg.transcriptFinal (tr voiceBuf)]) ∧
    voiceRun tr ⟨[], []⟩ voiceCancelEvents =
      (⟨[], []⟩, [VoiceMsg.transcriptPart (tr voiceBuf)]) := by
  have h1 : voiceStep tr ⟨[], []⟩ (VoiceEvent.start "device-1") =
      (⟨[("device-1", ⟨[], 0, 0⟩)], ["device-1"]⟩, []) := rfl
  have h2 : voiceStep tr ⟨[("device-1", ⟨[], 0, 0⟩)], ["device-1"]⟩
      (VoiceEvent.chunk "device-1" voiceChunkData) =
      (⟨[("device-1", ⟨[voiceChunkData], 800, 0⟩)], ["device-1"]⟩, []) := rfl
  have h3 : voiceStep tr ⟨[("device-1", ⟨[voiceChunkData], 800, 0⟩)], ["device-1"]⟩
      (VoiceEvent.chunk "device-1" voiceChunkData) =
      (⟨[("device-1", ⟨[voiceChunkData, voiceChunkData], 1600, 0⟩)], ["device-1"]⟩, []) := rfl
  have h4 : voiceStep tr
      ⟨[("device-1", ⟨[voiceChunkData, voiceChunkData], 1600, 0⟩)], ["device-1"]⟩
      (VoiceEvent.tick "device-1") =
      (⟨[("device-1", ⟨[voiceChunkData, voiceChunkData], 1600, 0⟩)], ["device-1"]⟩, []) := rfl
  have h5 : voiceStep tr
      ⟨[("device-1", ⟨[voiceChunkData, voiceChunkData], 1600, 0⟩)], ["device-1"]⟩
      (VoiceEvent.chunk "device-1" voiceChunkData) =
      (⟨[("device-1", ⟨[voiceChunkData, voiceChunkData, voiceChunkData], 2400, 0⟩)],
        ["device-1"]⟩, []) := rfl
  have h6 : voiceStep tr
      ⟨[("device-1", ⟨[voiceChunkData, voiceChunkData, voiceChunkData], 2400, 0⟩)],
        ["device-1"]⟩
      (VoiceEvent.chunk "device-1" voiceChunkData) =
      (⟨[("device-1", ⟨[voiceChunkData, voiceChunkData, voiceChunkData,
        voiceChunkData], 3200, 0⟩)], ["device-1"]⟩, []) := rfl
  have h7 : voiceStep tr
      ⟨[("device-1", ⟨[voiceChunkData, voiceChunkData, voiceChunkData,
        voiceChunkData], 3200, 0⟩)], ["device-1"]⟩
      (VoiceEvent.chunk "device-1" voiceChunkData) =
      (⟨[("device-1", ⟨[voiceChunkData, voiceChunkData, voiceChunkData,
        voiceChunkData, voiceChunkData], 4000, 0⟩)], ["device-1"]⟩, []) := rfl
  have h8 : voiceStep tr
      ⟨[("device-1", ⟨[voiceChunkData, voiceChunkData, voiceChunkData,
        voiceChunkData, voiceChunkData], 4000, 0⟩)], ["device-1"]⟩
      (VoiceEvent.tick "device-1") =
      (⟨[("device-1", ⟨[voiceChunkData, voiceChunkData, voiceChunkData,
        voiceChunkData, voiceChunkData], 4000, 4000⟩)], ["device-1"]⟩,
        if tr voiceBuf = "" then [] else [VoiceMsg.transcriptPart (tr voiceBuf)]) := rfl
  have h9 : voiceStep tr
      ⟨[("device-1", ⟨[voiceChunkData, voiceChunkData, voiceChunkData,
        voiceChunkData, voiceChunkData], 4000, 4000⟩)], ["device-1"]⟩
      (VoiceEvent.tick "device-1") =
      (⟨[("device-1", ⟨[voiceChunkData, voiceChunkData, voiceChunkData,
        voiceChunkData, voiceChunkData], 4000, 4000⟩)], ["device-1"]⟩, []) := rfl
  have h10 : voiceStep tr
      ⟨[("device-1", ⟨[voiceChunkData, voiceChunkData, voiceChunkData,
        voiceChunkData, voiceChunkData], 4000, 4000⟩)], ["device-1"]⟩
      (VoiceEvent.send "device-1") =
      (⟨[], []⟩, [VoiceMsg.transcriptFinal (tr voiceBuf)]) := rfl
  have hc1 : voiceStep tr
      ⟨[("device-1", ⟨[voiceChunkData, voiceChunkData, voiceChunkData,
        voiceChunkData, voiceChunkData], 4000, 4000⟩)], ["device-1"]⟩
      (VoiceEvent.cancel "device-1") = (⟨[], []⟩, []) := rfl
  have hc2 : voiceStep tr ⟨[], []⟩ (VoiceEvent.tick "device-1") =
      (⟨[], []⟩, []) := rfl
  refine ⟨?_, ?_⟩
  · simp only [voiceSendEvents, voiceRun, h1, h2, h3, h4, h5, h6, h7, h8, h9, h10,
      List.nil_append, List.append_nil]
    rw [if_neg h]
    rfl
  · simp only [voiceCancelEvents, voiceRun, h1, h2, h3, h4, h5, h6, h7, h8, h9,
      hc1, hc2, List.nil_append, List.append_nil]
    rw [if_neg h]

/-- Witness for C4: the fixed transcriber returning "hello world". -/
theorem voice_partial_final_counts_witness :
    voiceRun c4Tr ⟨[], []⟩ voiceSendEvents =
      (⟨[], []⟩, [VoiceMsg.transcriptPart (c4Tr voiceBuf),
        VoiceMsg.transcriptFinal (c4Tr voiceBuf)]) ∧
    voiceRun c4Tr ⟨[], []⟩ voiceCancelEvents =
      (⟨[], []⟩, [VoiceMsg.transcriptPart (c4Tr voiceBuf)]) :=
  voice_partial_final_counts c4Tr (by decide)
